import Mathlib

/-!
# DhakaCart: order creation and cancellation

A shallow embedding of the controllers and middleware of the DhakaCart backend
(`backend/controllers/orderController.js`, `paymentController.js`,
`adminController.js`, `productController.js`, and
`backend/middleware/validationMiddleware.js`, `rateLimitMiddleware.js`,
`errorMiddleware.js`).

The relational store is a record of tables (lists of rows).  SQL statements
are list operations: `SELECT ... WHERE` is a filter, `UPDATE ... WHERE` maps
over every matching row, `INSERT` appends a row.  A transaction works on a
copy of the store; `COMMIT` makes the copy the committed store and `ROLLBACK`
discards it.  `stock` and `quantity` are integers.  Amounts (`price`,
`subtotal`, `total_amount`, `amount`) are rational numbers: every decimal of the
database and every finite double of JavaScript is one.  The arithmetic that
JavaScript performs on amounts, in double precision, is a collaborator of the
request (`Env.mul`, `Env.add`) about which nothing is assumed.  Timestamps are
not modelled.

Requests are served one after the other.  Every statement sent to the
database may throw (`Env.dbFault`), a statement that throws has no effect, and
`ROLLBACK` itself does not throw; the cache calls may throw as well.  Handlers
are functions from the committed store and the request to the response and the
committed store afterwards.
-/

namespace DhakaCart

/-! ## Data model -/

/-- Row of the `products` table (columns read by the order controllers). -/
structure Product where
  id : Nat
  name : String
  price : ℚ
  stock : Int
  deriving DecidableEq, Repr

/-- Row of the `orders` table. -/
structure Order where
  id : Nat
  user_id : Nat
  total_amount : ℚ
  shipping_address : String
  payment_method : String
  status : String
  shipping_cost : ℚ
  payment_status : String
  deriving DecidableEq, Repr

/-- Row of the `order_items` table. -/
structure OrderItem where
  order_id : Nat
  product_id : Nat
  quantity : Int
  price : ℚ
  deriving DecidableEq, Repr

/-- Row of the `payments` table. -/
structure Payment where
  id : Nat
  order_id : Nat
  amount : ℚ
  payment_method : String
  transaction_id : Option String
  status : String
  card_last4 : Option String
  refund_reason : Option String
  deriving DecidableEq, Repr

/-- The committed relational store.  `next_order_id` and `next_payment_id` are
the serial counters from which `INSERT` draws the `id` of a new row. -/
structure Store where
  products : List Product
  orders : List Order
  order_items : List OrderItem
  payments : List Payment
  next_order_id : Nat
  next_payment_id : Nat
  deriving DecidableEq, Repr

/-- One entry of `req.body.items`. -/
structure CartItem where
  product_id : Nat
  quantity : Int
  deriving DecidableEq, Repr

/-- Entry of the `orderItems` array built by `createOrder` and returned to the
caller. -/
structure OrderLine where
  product_id : Nat
  product_name : String
  quantity : Int
  price : ℚ
  subtotal : ℚ
  deriving DecidableEq, Repr

/-- The parts of the request read by `createOrder`: `req.user.userId` and the
body fields `items`, `shipping_address`, `payment_method` (`none` is an absent
field). -/
structure OrderRequest where
  userId : Nat
  items : Option (List CartItem)
  shipping_address : Option String
  payment_method : String
  deriving DecidableEq, Repr

/-- Row of the `products` table with the further columns that the product
controller reads. -/
structure ProductRow extends Product where
  description : String
  category : String
  created_at : Nat
  deriving DecidableEq, Repr

/-- The object `pagination` of a product listing.  `pages` is `none` when
`Math.ceil(total / limit)` is not a finite number (`limit` is 0). -/
structure Pagination where
  page : Nat
  limit : Nat
  total : Nat
  pages : Option Nat
  deriving DecidableEq, Repr

/-- JSON body of a response. -/
inductive Body where
  | error (msg : String)
  | errors (msgs : List String)
  | message (msg : String)
  | orderCreated (msg : String) (order : Order) (items : List OrderLine)
  | orderUpdated (msg : String) (order : Order)
  | paymentFailed (msg : String)
  | paymentDone (msg : String) (payment : Payment) (transaction_id : Option String)
  | refundDone (msg : String)
  | errorWithStack (msg : String) (stack : String)
  | productList (source : String) (products : List ProductRow) (pagination : Pagination)
  deriving DecidableEq, Repr

/-- What the handler sends with `res.status(..).json(..)`. -/
structure Response where
  status : Nat
  body : Body
  deriving DecidableEq, Repr

/-- The collaborators of one request: which statement sent to the database
throws (`dbFault n = some msg`: the statement number `n` of the request, counted
from 0, throws an error with message `msg`), what the cache answers, the values
drawn by the payment simulation, and the arithmetic of the runtime on amounts:
`mul price quantity` is the number `price * quantity` and `add a b` the number
`a + b` as JavaScript computes them, the conversion of a decimal price to a
double and the rounding of the result included. -/
structure Env where
  dbFault : Nat → Option String
  cacheKeys : Except String (List String)
  cacheDel : Option String
  paymentSucceeds : Bool
  now : Nat
  rand : Nat
  mul : ℚ → Int → ℚ
  add : ℚ → ℚ → ℚ

/-- An environment in which no collaborator fails and the arithmetic on amounts
is exact, as double precision is on integers of moderate size. -/
def Env.ok : Env :=
  { dbFault := fun _ => none, cacheKeys := .ok [], cacheDel := none,
    paymentSucceeds := true, now := 0, rand := 0,
    mul := fun a b => a * b, add := fun a b => a + b }

/-- The JavaScript expression `msg || fallback` on strings. -/
def orElse (msg fallback : String) : String :=
  if msg = "" then fallback else msg

/-! ## SQL statements of the order controller -/

/-- Rows of `SELECT id, name, price, stock FROM products WHERE id = $1`. -/
def Store.selectProduct (s : Store) (id : Nat) : List Product :=
  s.products.filter (fun p => p.id = id)

/-- Statement `UPDATE products SET stock = stock - $1 WHERE id = $2`. -/
def Store.decStock (s : Store) (quantity : Int) (id : Nat) : Store :=
  let products := s.products.map
    (fun p => if p.id = id then { p with stock := p.stock - quantity } else p)
  { s with products := products }

/-- Statement `UPDATE products SET stock = stock + $1 WHERE id = $2`. -/
def Store.incStock (s : Store) (quantity : Int) (id : Nat) : Store :=
  let products := s.products.map
    (fun p => if p.id = id then { p with stock := p.stock + quantity } else p)
  { s with products := products }

/-- Statement `INSERT INTO orders (user_id, total_amount, shipping_address,
payment_method, status, shipping_cost) VALUES (...) RETURNING *`: the new row
and the store holding it.  The `id` is drawn from the serial counter;
`payment_status` is not in the column list and gets the default of the schema,
which is not part of the sources: `pending`, as the specification has it. -/
def Store.insertOrder (s : Store) (userId : Nat) (totalAmount : ℚ)
    (shipping_address payment_method status : String) (shippingCost : ℚ) :
    Order × Store :=
  let order : Order :=
    { id := s.next_order_id, user_id := userId, total_amount := totalAmount,
      shipping_address := shipping_address, payment_method := payment_method,
      status := status, shipping_cost := shippingCost, payment_status := "pending" }
  (order, { s with orders := s.orders ++ [order], next_order_id := s.next_order_id + 1 })

/-- Statement `INSERT INTO order_items (order_id, product_id, quantity, price)
VALUES ($1, $2, $3, $4)`. -/
def Store.insertOrderItem (s : Store) (order_id product_id : Nat)
    (quantity : Int) (price : ℚ) : Store :=
  let row : OrderItem :=
    { order_id := order_id, product_id := product_id, quantity := quantity, price := price }
  { s with order_items := s.order_items ++ [row] }

/-- Rows of `SELECT * FROM orders WHERE id = $1 AND user_id = $2`. -/
def Store.selectOrder (s : Store) (id userId : Nat) : List Order :=
  s.orders.filter (fun o => o.id = id ∧ o.user_id = userId)

/-- Rows of `SELECT product_id, quantity FROM order_items WHERE order_id = $1`. -/
def Store.selectItems (s : Store) (id : Nat) : List OrderItem :=
  s.order_items.filter (fun it => it.order_id = id)

/-- Statement `UPDATE orders SET status = $1, updated_at = CURRENT_TIMESTAMP
WHERE id = $2`. -/
def Store.setStatus (s : Store) (status : String) (id : Nat) : Store :=
  let orders := s.orders.map
    (fun o => if o.id = id then { o with status := status } else o)
  { s with orders := orders }

/-! ## createOrder -/

/-- The loop `for (const item of items)` of `createOrder`, run inside the
transaction on the working copy `w`; `n` is the number of the next statement,
`total` is `totalAmount` and `acc` is `orderItems`.  An error is the message of
the exception that leaves the loop. -/
def createOrder.loop (env : Env) :
    List CartItem → Store → Nat → ℚ → List OrderLine →
      Except String (Store × Nat × ℚ × List OrderLine)
  | [], w, n, total, acc => .ok (w, n, total, acc)
  | item :: rest, w, n, total, acc =>
    -- SELECT id, name, price, stock FROM products WHERE id = $1 FOR UPDATE
    match env.dbFault n with
    | some e => .error e
    | none =>
      match w.selectProduct item.product_id with
      | [] => .error ("Product " ++ toString item.product_id ++ " not found")
      | product :: _ =>
        if product.stock < item.quantity then
          .error ("Insufficient stock for " ++ product.name)
        else
          -- UPDATE products SET stock = stock - $1 WHERE id = $2
          match env.dbFault (n + 1) with
          | some e => .error e
          | none =>
            let w1 := w.decStock item.quantity product.id
            let itemTotal := env.mul product.price item.quantity
            createOrder.loop env rest w1 (n + 2) (env.add total itemTotal)
              (acc ++ [{ product_id := product.id, product_name := product.name,
                         quantity := item.quantity, price := product.price,
                         subtotal := itemTotal }])

/-- The loop `for (const item of orderItems)` of `createOrder` that inserts the
`order_items` rows. -/
def createOrder.insertItems (env : Env) (orderId : Nat) :
    List OrderLine → Store → Nat → Except String (Store × Nat)
  | [], w, n => .ok (w, n)
  | item :: rest, w, n =>
    match env.dbFault n with
    | some e => .error e
    | none =>
      createOrder.insertItems env orderId rest
        (w.insertOrderItem orderId item.product_id item.quantity item.price) (n + 1)

/-- The statements of `createOrder` from `BEGIN` to `COMMIT`.  On success the
result is the store after the commit, the inserted order row and `orderItems`;
an error is the message of the exception caught by the handler before the
commit took effect. -/
def createOrder.transaction (env : Env) (s : Store) (userId : Nat)
    (items : List CartItem) (shipping_address payment_method : String) :
    Except String (Store × Order × List OrderLine) :=
  -- BEGIN
  match env.dbFault 0 with
  | some e => .error e
  | none =>
    match createOrder.loop env items s 1 0 [] with
    | .error e => .error e
    | .ok (w, n, totalAmount, orderItems) =>
      let shippingCost : ℚ := 100
      let totalAmount := env.add totalAmount shippingCost
      -- INSERT INTO orders ... RETURNING *
      match env.dbFault n with
      | some e => .error e
      | none =>
        let (order, w1) :=
          w.insertOrder userId totalAmount shipping_address payment_method "pending"
            shippingCost
        match createOrder.insertItems env order.id orderItems w1 (n + 1) with
        | .error e => .error e
        | .ok (w2, n2) =>
          -- COMMIT
          match env.dbFault n2 with
          | some e => .error e
          | none => .ok (w2, order, orderItems)

/-- The cache invalidation that follows the `COMMIT` in `createOrder`:
`cache.keys('products:*')`, then `cache.del(keys)` when there are keys. -/
def clearProductCache (env : Env) : Except String Unit :=
  match env.cacheKeys with
  | .error e => .error e
  | .ok keys =>
    if keys.length > 0 then
      match env.cacheDel with
      | some e => .error e
      | none => .ok ()
    else .ok ()

/-- Handler `createOrder`: the response sent and the committed store after the
request.  The `catch` block issues `ROLLBACK` and answers 500 with
`error.message || 'Failed to create order'`; a `ROLLBACK` issued after the
`COMMIT` has nothing to undo. -/
def createOrder (env : Env) (s : Store) (req : OrderRequest) : Response × Store :=
  match req.items with
  | none => (⟨400, .error "Cart is empty"⟩, s)
  | some [] => (⟨400, .error "Cart is empty"⟩, s)
  | some (item :: rest) =>
    match req.shipping_address with
    | none => (⟨400, .error "Shipping address required"⟩, s)
    | some shipping_address =>
      if shipping_address = "" then (⟨400, .error "Shipping address required"⟩, s)
      else
        match createOrder.transaction env s req.userId (item :: rest) shipping_address
            req.payment_method with
        | .error e => (⟨500, .error (orElse e "Failed to create order")⟩, s)
        | .ok (w, order, orderItems) =>
          match clearProductCache env with
          | .error e => (⟨500, .error (orElse e "Failed to create order")⟩, w)
          | .ok _ =>
            (⟨201, .orderCreated "Order created successfully" order orderItems⟩, w)

/-! ## cancelOrder -/

/-- The loop `for (const item of itemsResult.rows)` of `cancelOrder`. -/
def cancelOrder.restore (env : Env) :
    List OrderItem → Store → Nat → Except String (Store × Nat)
  | [], w, n => .ok (w, n)
  | item :: rest, w, n =>
    -- UPDATE products SET stock = stock + $1 WHERE id = $2
    match env.dbFault n with
    | some e => .error e
    | none => cancelOrder.restore env rest (w.incStock item.quantity item.product_id) (n + 1)

/-- The statements of `cancelOrder` from `BEGIN` to `COMMIT`. -/
def cancelOrder.transaction (env : Env) (s : Store) (userId id : Nat) :
    Except String Store :=
  -- BEGIN
  match env.dbFault 0 with
  | some e => .error e
  | none =>
    -- SELECT * FROM orders WHERE id = $1 AND user_id = $2 FOR UPDATE
    match env.dbFault 1 with
    | some e => .error e
    | none =>
      match s.selectOrder id userId with
      | [] => .error "Order not found"
      | order :: _ =>
        if order.status ≠ "pending" ∧ order.status ≠ "processing" then
          .error "Order cannot be cancelled"
        else
          -- SELECT product_id, quantity FROM order_items WHERE order_id = $1
          match env.dbFault 2 with
          | some e => .error e
          | none =>
            match cancelOrder.restore env (s.selectItems id) s 3 with
            | .error e => .error e
            | .ok (w, n) =>
              -- UPDATE orders SET status = $1, ... WHERE id = $2
              match env.dbFault n with
              | some e => .error e
              | none =>
                let w1 := w.setStatus "cancelled" id
                -- COMMIT
                match env.dbFault (n + 1) with
                | some e => .error e
                | none => .ok w1

/-- Handler `cancelOrder`. -/
def cancelOrder (env : Env) (s : Store) (userId id : Nat) : Response × Store :=
  match cancelOrder.transaction env s userId id with
  | .error e => (⟨500, .error (orElse e "Failed to cancel order")⟩, s)
  | .ok w => (⟨200, .message "Order cancelled successfully"⟩, w)

/-! ## validateOrder -/

/-- A value of a parsed JSON request body, as JavaScript sees it.  Numbers are
the integral ones. -/
inductive JsVal where
  | undefined
  | null
  | bool (b : Bool)
  | num (n : Int)
  | str (s : String)
  | arr (xs : List JsVal)
  | obj (fields : List (String × JsVal))

/-- JavaScript truthiness (the operand of `!` and `if`). -/
def JsVal.truthy : JsVal → Bool
  | .undefined => false
  | .null => false
  | .bool b => b
  | .num n => n ≠ 0
  | .str s => s ≠ ""
  | .arr _ => true
  | .obj _ => true

/-- The property read `v.key` for one of the keys read by the validation
middleware (`items`, `shipping_address`, `product_id`, `quantity`, `name`,
`price`, `category`, `stock`), none of which is an inherited property: `none`
is the `TypeError` of reading a property of `undefined` or `null`. -/
def JsVal.get (v : JsVal) (key : String) : Option JsVal :=
  match v with
  | .undefined => none
  | .null => none
  | .obj fields => some ((fields.lookup key).getD .undefined)
  | _ => some .undefined

/-- The parts of the JavaScript engine that the validation middleware relies on
and that are not given here: the result of `v < k` and of `isNaN(v)` when `v` is
a string, an array or an object (`none` when the conversion to a primitive
throws). -/
structure JsEngine where
  lt : JsVal → Int → Option Bool
  isNaN : JsVal → Option Bool

/-- The comparison `v < k` with a number `k`: numbers compare as integers,
`true` is 1, `false` and `null` are 0, `undefined` is `NaN`; the other cases are
the engine's. -/
def JsVal.lt (engine : JsEngine) (v : JsVal) (k : Int) : Option Bool :=
  match v with
  | .undefined => some false
  | .null => some (decide (0 < k))
  | .bool b => some (decide ((if b then 1 else 0) < k))
  | .num n => some (decide (n < k))
  | _ => engine.lt v k

/-- The global function `isNaN(v)`. -/
def JsVal.isNaN (engine : JsEngine) (v : JsVal) : Option Bool :=
  match v with
  | .undefined => some true
  | .null => some false
  | .bool _ => some false
  | .num _ => some false
  | _ => engine.isNaN v

/-- White space and line terminators, the characters removed by
`String.prototype.trim`. -/
def isJsWhiteSpace (c : Char) : Bool :=
  let n := c.toNat
  n = 0x9 || n = 0xA || n = 0xB || n = 0xC || n = 0xD || n = 0x20 || n = 0xA0 ||
    n = 0x1680 || (0x2000 ≤ n && n ≤ 0x200A) || n = 0x2028 || n = 0x2029 ||
    n = 0x202F || n = 0x205F || n = 0x3000 || n = 0xFEFF

/-- The characters of `s.trim()`. -/
def jsTrim (s : String) : List Char :=
  ((s.data.dropWhile isJsWhiteSpace).reverse.dropWhile isJsWhiteSpace).reverse

/-- The `length` of a JavaScript string with these characters: the number of
UTF-16 code units. -/
def jsLength (cs : List Char) : Nat :=
  (cs.map (fun c => if c.toNat < 0x10000 then 1 else 2)).sum

/-- The property read `v.length` of a value that is neither `undefined` nor
`null`. -/
def JsVal.length : JsVal → JsVal
  | .str s => .num (jsLength s.data)
  | .arr xs => .num xs.length
  | .obj fields => (fields.lookup "length").getD .undefined
  | _ => .undefined

/-- What a middleware does with a request: call `next()`, answer 400 with a list
of errors, or throw. -/
inductive Validation where
  | next
  | rejected (errors : List String)
  | throws
  deriving DecidableEq, Repr

/-- The callback of `items.forEach` in `validateOrder`, applied to the items from
position `index` on; `errors` is the array it pushes to.  `none`: the callback
throws. -/
def validateOrder.forEach (engine : JsEngine) :
    List JsVal → Nat → List String → Option (List String)
  | [], _, errors => some errors
  | item :: rest, index, errors =>
    match item.get "product_id", item.get "quantity" with
    | some product_id, some quantity =>
      let errors1 :=
        if !product_id.truthy || !quantity.truthy then
          errors ++ ["Item " ++ toString (index + 1) ++ ": product_id and quantity required"]
        else errors
      match quantity.lt engine 1 with
      | none => none
      | some lt =>
        let errors2 :=
          if lt then
            errors1 ++ ["Item " ++ toString (index + 1) ++ ": quantity must be at least 1"]
          else errors1
        validateOrder.forEach engine rest (index + 1) errors2
    | _, _ => none

/-- Middleware `validateOrder` on the request body. -/
def validateOrder (engine : JsEngine) (body : JsVal) : Validation :=
  match body.get "items", body.get "shipping_address" with
  | some items, some shipping_address =>
    -- if (!items || !Array.isArray(items) || items.length === 0)
    let errors0 : List String :=
      match items with
      | .arr (_ :: _) => []
      | _ => ["Order must contain at least one item"]
    -- if (items) items.forEach(...)
    let errors1 : Option (List String) :=
      if items.truthy then
        match items with
        | .arr xs => validateOrder.forEach engine xs 0 errors0
        | _ => none
      else some errors0
    match errors1 with
    | none => .throws
    | some errors1 =>
      -- if (!shipping_address || shipping_address.trim().length < 10)
      let errors2 : Option (List String) :=
        if !shipping_address.truthy then
          some (errors1 ++ ["Shipping address must be at least 10 characters"])
        else
          match shipping_address with
          | .str a =>
            if jsLength (jsTrim a) < 10 then
              some (errors1 ++ ["Shipping address must be at least 10 characters"])
            else some errors1
          | _ => none
      match errors2 with
      | none => .throws
      | some errors2 => if errors2.length > 0 then .rejected errors2 else .next
  | _, _ => .throws

/-! ## validateProduct -/

/-- The array literal of `validateProduct`. -/
def validCategories : List String :=
  ["laptops", "smartphones", "tablets", "accessories"]

/-- The condition `v && (isNaN(v) || v < 0)` of `validateProduct` (`none`: it
throws). -/
def validateProduct.badNumber (engine : JsEngine) (v : JsVal) : Option Bool :=
  if v.truthy then
    match v.isNaN engine with
    | none => none
    | some true => some true
    | some false => v.lt engine 0
  else some false

/-- Middleware `validateProduct` on the request body. -/
def validateProduct (engine : JsEngine) (body : JsVal) : Validation :=
  match body.get "name", body.get "price", body.get "category", body.get "stock" with
  | some name, some price, some category, some stock =>
    -- if (name && name.length < 3)
    let badName : Option Bool := if name.truthy then name.length.lt engine 3 else some false
    -- if (category && !validCategories.includes(category))
    let badCategory : Bool :=
      category.truthy &&
        (match category with
         | .str c => decide (c ∉ validCategories)
         | _ => true)
    match badName, validateProduct.badNumber engine price,
        validateProduct.badNumber engine stock with
    | some badName, some badPrice, some badStock =>
      let errors : List String :=
        (if badName then ["Product name must be at least 3 characters"] else []) ++
        (if badPrice then ["Price must be a positive number"] else []) ++
        (if badStock then ["Stock must be a positive number"] else []) ++
        (if badCategory then ["Invalid category"] else [])
      if errors.length > 0 then .rejected errors else .next
    | _, _, _ => .throws
  | _, _, _, _ => .throws

/-- The JSON value of a cart line. -/
def CartItem.toJs (c : CartItem) : JsVal :=
  .obj [("product_id", .num c.product_id), ("quantity", .num c.quantity)]

/-- The request body from which `createOrder` reads the fields of `req`. -/
def OrderRequest.body (req : OrderRequest) : JsVal :=
  .obj [("items", match req.items with
                  | none => .undefined
                  | some items => .arr (items.map CartItem.toJs)),
        ("shipping_address", match req.shipping_address with
                             | none => .undefined
                             | some a => .str a),
        ("payment_method", .str req.payment_method)]

/-! ## Payment controller -/

/-- Statement `INSERT INTO payments (...) VALUES (...) RETURNING *`. -/
def Store.insertPayment (s : Store) (order_id : Nat) (amount : ℚ)
    (payment_method : String) (transaction_id : Option String) (status : String)
    (card_last4 : Option String) : Payment × Store :=
  let payment : Payment :=
    { id := s.next_payment_id, order_id := order_id, amount := amount,
      payment_method := payment_method, transaction_id := transaction_id,
      status := status, card_last4 := card_last4, refund_reason := none }
  (payment,
    { s with payments := s.payments ++ [payment], next_payment_id := s.next_payment_id + 1 })

/-- Statement `UPDATE orders SET payment_status = .., status = ..,
updated_at = CURRENT_TIMESTAMP WHERE id = $1` of the payment controller. -/
def Store.setPaymentAndStatus (s : Store) (payment_status status : String) (id : Nat) :
    Store :=
  let orders := s.orders.map
    (fun o => if o.id = id then { o with payment_status := payment_status, status := status }
      else o)
  { s with orders := orders }

/-- Statement `UPDATE payments SET status = 'refunded', refund_reason = $1, ...
WHERE id = $2`. -/
def Store.refund (s : Store) (reason : String) (payment_id : Nat) : Store :=
  let payments := s.payments.map
    (fun p => if p.id = payment_id then
        { p with status := "refunded", refund_reason := some reason }
      else p)
  { s with payments := payments }

/-- The statements after the simulated gateway accepted a payment, shared by
`processBkashPayment` and `processCardPayment`: insert the payment row, mark the
order paid and processing.  Each statement commits on its own. -/
def recordPayment (env : Env) (s : Store) (order_id : Nat) (amount : ℚ)
    (method transactionId : String) (card_last4 : Option String) : Response × Store :=
  match env.dbFault 1 with
  | some _ => (⟨500, .error "Payment processing failed"⟩, s)
  | none =>
    let (payment, s1) :=
      s.insertPayment order_id amount method (some transactionId) "completed" card_last4
    match env.dbFault 2 with
    | some _ => (⟨500, .error "Payment processing failed"⟩, s1)
    | none =>
      (⟨200, .paymentDone "Payment successful" payment (some transactionId)⟩,
        s1.setPaymentAndStatus "paid" "processing" order_id)

/-- Handler `processBkashPayment`.  A field that is absent or falsy is `0` or
the empty string. -/
def processBkashPayment (env : Env) (s : Store) (userId order_id : Nat) (amount : ℚ)
    (phone : String) : Response × Store :=
  if order_id = 0 ∨ amount = 0 ∨ phone = "" then
    (⟨400, .error "Order ID, amount, and phone required"⟩, s)
  else
    match env.dbFault 0 with
    | some _ => (⟨500, .error "Payment processing failed"⟩, s)
    | none =>
      match s.selectOrder order_id userId with
      | [] => (⟨404, .error "Order not found"⟩, s)
      | order :: _ =>
        if order.total_amount ≠ amount then (⟨400, .error "Amount mismatch"⟩, s)
        else if !env.paymentSucceeds then
          (⟨400, .paymentFailed "Payment failed. Please try again."⟩, s)
        else
          recordPayment env s order_id amount "bkash"
            ("BKS" ++ toString env.now ++ toString env.rand) none

/-- The expression `card_number.slice(-4)` on a string of characters of the
basic plane. -/
def lastFour (card_number : String) : String :=
  String.mk (card_number.data.drop (card_number.data.length - 4))

/-- Handler `processCardPayment`. -/
def processCardPayment (env : Env) (s : Store) (userId order_id : Nat) (amount : ℚ)
    (card_number card_holder expiry cvv : String) : Response × Store :=
  if order_id = 0 ∨ amount = 0 ∨ card_number = "" ∨ card_holder = "" ∨ expiry = "" ∨
      cvv = "" then
    (⟨400, .error "All card details required"⟩, s)
  else if jsLength card_number.data < 16 then (⟨400, .error "Invalid card number"⟩, s)
  else if jsLength cvv.data < 3 then (⟨400, .error "Invalid CVV"⟩, s)
  else
    match env.dbFault 0 with
    | some _ => (⟨500, .error "Payment processing failed"⟩, s)
    | none =>
      match s.selectOrder order_id userId with
      | [] => (⟨404, .error "Order not found"⟩, s)
      | order :: _ =>
        if order.total_amount ≠ amount then (⟨400, .error "Amount mismatch"⟩, s)
        else if !env.paymentSucceeds then
          (⟨400, .paymentFailed "Card payment declined. Please check your card details."⟩, s)
        else
          recordPayment env s order_id amount "card"
            ("CARD" ++ toString env.now ++ toString env.rand) (some (lastFour card_number))

/-- Handler `processCOD`. -/
def processCOD (env : Env) (s : Store) (userId order_id : Nat) : Response × Store :=
  match env.dbFault 0 with
  | some _ => (⟨500, .error "Failed to process cash on delivery"⟩, s)
  | none =>
    match s.selectOrder order_id userId with
    | [] => (⟨404, .error "Order not found"⟩, s)
    | order :: _ =>
      match env.dbFault 1 with
      | some _ => (⟨500, .error "Failed to process cash on delivery"⟩, s)
      | none =>
        let (payment, s1) :=
          s.insertPayment order_id order.total_amount "cash_on_delivery" none "pending" none
        match env.dbFault 2 with
        | some _ => (⟨500, .error "Failed to process cash on delivery"⟩, s1)
        | none =>
          (⟨200, .paymentDone
              "Order placed successfully. Pay when you receive the product." payment none⟩,
            s1.setPaymentAndStatus "pending" "processing" order_id)

/-- Handler `refundPayment` (admin). -/
def refundPayment (env : Env) (s : Store) (payment_id : Nat) (reason : String) :
    Response × Store :=
  match env.dbFault 0 with
  | some _ => (⟨500, .error "Failed to process refund"⟩, s)
  | none =>
    match s.payments.filter (fun p => p.id = payment_id) with
    | [] => (⟨404, .error "Payment not found"⟩, s)
    | payment :: _ =>
      if payment.status = "refunded" then (⟨400, .error "Payment already refunded"⟩, s)
      else
        match env.dbFault 1 with
        | some _ => (⟨500, .error "Failed to process refund"⟩, s)
        | none =>
          let s1 := s.refund reason payment_id
          match env.dbFault 2 with
          | some _ => (⟨500, .error "Failed to process refund"⟩, s1)
          | none =>
            (⟨200, .refundDone "Refund processed successfully"⟩,
              s1.setPaymentAndStatus "refunded" "cancelled" payment.order_id)

/-! ## Admin controller -/

/-- The list `validStatuses` of `updateOrderStatus`. -/
def validStatuses : List String :=
  ["pending", "processing", "shipped", "delivered", "cancelled"]

/-- Handler `updateOrderStatus` (admin): the `UPDATE orders SET status = $1 ...
WHERE id = $2 RETURNING *` and its answer. -/
def updateOrderStatus (env : Env) (s : Store) (id : Nat) (status : String) :
    Response × Store :=
  if status ∉ validStatuses then (⟨400, .error "Invalid status"⟩, s)
  else
    match env.dbFault 0 with
    | some _ => (⟨500, .error "Failed to update order status"⟩, s)
    | none =>
      let s1 := s.setStatus status id
      match s1.orders.filter (fun o => o.id = id) with
      | [] => (⟨404, .error "Order not found"⟩, s1)
      | order :: _ => (⟨200, .orderUpdated "Order status updated successfully" order⟩, s1)

/-- Handler `updateProduct` (admin) on the modelled columns: the statement
`UPDATE products SET name = COALESCE($1, name), price = COALESCE($3, price),
stock = COALESCE($5, stock), ... WHERE id = $7 RETURNING *` (a field that is
absent or `null` is `none`), then the cache invalidation.  The columns
`description`, `category` and `image` are not modelled. -/
def updateProduct (env : Env) (s : Store) (id : Nat) (name : Option String)
    (price : Option ℚ) (stock : Option Int) : Response × Store :=
  match env.dbFault 0 with
  | some _ => (⟨500, .error "Failed to update product"⟩, s)
  | none =>
    let products := s.products.map
      (fun p => if p.id = id then
          { p with name := name.getD p.name, price := price.getD p.price,
                   stock := stock.getD p.stock }
        else p)
    let s1 : Store := { s with products := products }
    match s1.products.filter (fun p => p.id = id) with
    | [] => (⟨404, .error "Product not found"⟩, s1)
    | _ :: _ =>
      match env.cacheKeys, env.cacheDel with
      | .ok _, none => (⟨200, .message "Product updated successfully"⟩, s1)
      | _, _ => (⟨500, .error "Failed to update product"⟩, s1)

/-! ## Product controller -/

/-- The query parameters read by `getAllProducts`.  Query values are strings:
an absent or empty `category`, `search` or `sort` is falsy, `minPrice` and
`maxPrice` are `none` when absent or empty and otherwise the number they denote,
`page` and `limit` are the numbers they denote (1 and 20 when absent). -/
structure ProductQuery where
  category : Option String
  search : Option String
  sort : Option String
  minPrice : Option Int
  maxPrice : Option Int
  page : Nat
  limit : Nat
  deriving DecidableEq, Repr

/-- A value of the `params` array of a query. -/
inductive SqlParam where
  | text (s : String)
  | number (n : Int)
  deriving DecidableEq, Repr

/-- The arguments of `db.query(query, params)`. -/
structure SqlQuery where
  text : String
  params : List SqlParam
  deriving DecidableEq, Repr

/-- A query string value is truthy when it is present and not empty. -/
def truthyParam : Option String → Bool
  | some v => v ≠ ""
  | none => false

/-- The own properties of the object literal `sortOptions`. -/
def sortOptions : List (String × String) :=
  [("price_asc", "price ASC"), ("price_desc", "price DESC"), ("name_asc", "name ASC"),
   ("name_desc", "name DESC"), ("newest", "created_at DESC")]

/-- The text that a template literal produces for the property `key` that an
object literal inherits from `Object.prototype` (`none`: there is no such
property).  The inherited properties are functions, whose text is
`function name() { [native code] }`, and `__proto__`, the prototype object. -/
def inheritedText : String → Option String
  | "constructor" => some "function Object() \x7b [native code] \x7d"
  | "toString" => some "function toString() \x7b [native code] \x7d"
  | "toLocaleString" => some "function toLocaleString() \x7b [native code] \x7d"
  | "valueOf" => some "function valueOf() \x7b [native code] \x7d"
  | "hasOwnProperty" => some "function hasOwnProperty() \x7b [native code] \x7d"
  | "isPrototypeOf" => some "function isPrototypeOf() \x7b [native code] \x7d"
  | "propertyIsEnumerable" =>
    some "function propertyIsEnumerable() \x7b [native code] \x7d"
  | "__defineGetter__" => some "function __defineGetter__() \x7b [native code] \x7d"
  | "__defineSetter__" => some "function __defineSetter__() \x7b [native code] \x7d"
  | "__lookupGetter__" => some "function __lookupGetter__() \x7b [native code] \x7d"
  | "__lookupSetter__" => some "function __lookupSetter__() \x7b [native code] \x7d"
  | "__proto__" => some "[object Object]"
  | _ => none

/-- The text interpolated by `${sortOptions[sort] || 'created_at DESC'}`: the own
property of `sortOptions`, else the inherited property (a function or an object,
hence truthy), else the default. -/
def orderByClause (sort : Option String) : String :=
  match sort with
  | none => "created_at DESC"
  | some key =>
    match sortOptions.lookup key with
    | some clause => clause
    | none =>
      match inheritedText key with
      | some text => text
      | none => "created_at DESC"

/-- The filter part shared by the two queries of `getAllProducts`: the
conditions on `category` and `search` appended to `query` with their
parameters. -/
def appendCategorySearch (q : ProductQuery) (query : SqlQuery) : SqlQuery :=
  let query1 : SqlQuery :=
    if truthyParam q.category ∧ q.category ≠ some "all" then
      let params := query.params ++ [SqlParam.text (q.category.getD "")]
      { text := query.text ++ " AND category = $" ++ toString params.length,
        params := params }
    else query
  if truthyParam q.search then
    let params := query1.params ++ [SqlParam.text ("%" ++ q.search.getD "" ++ "%")]
    { text := query1.text ++ " AND (name ILIKE $" ++ toString params.length ++
        " OR description ILIKE $" ++ toString params.length ++ ")",
      params := params }
  else query1

/-- The listing query built by `getAllProducts`: text and parameters. -/
def getAllProducts.query (q : ProductQuery) : SqlQuery :=
  let query0 :=
    appendCategorySearch q { text := "SELECT * FROM products WHERE 1=1", params := [] }
  let query1 : SqlQuery :=
    match q.minPrice with
    | some minPrice =>
      let params := query0.params ++ [SqlParam.number minPrice]
      { text := query0.text ++ " AND price >= $" ++ toString params.length, params := params }
    | none => query0
  let query2 : SqlQuery :=
    match q.maxPrice with
    | some maxPrice =>
      let params := query1.params ++ [SqlParam.number maxPrice]
      { text := query1.text ++ " AND price <= $" ++ toString params.length, params := params }
    | none => query1
  let sorted := query2.text ++ " ORDER BY " ++ orderByClause q.sort
  let offset : Int := ((q.page : Int) - 1) * q.limit
  let params := query2.params ++ [SqlParam.number q.limit, SqlParam.number offset]
  { text := sorted ++ " LIMIT $" ++ toString (params.length - 1) ++ " OFFSET $" ++
      toString params.length,
    params := params }

/-- The count query built by `getAllProducts`: text and parameters. -/
def getAllProducts.countQuery (q : ProductQuery) : SqlQuery :=
  appendCategorySearch q { text := "SELECT COUNT(*) FROM products WHERE 1=1", params := [] }

/-- The parts of the database that the listing relies on: the operator `ILIKE`
(text, pattern) and the sorting of rows by an `ORDER BY` clause (`none`: the
clause is not valid SQL and the statement throws). -/
structure SqlEngine where
  ilike : String → String → Bool
  orderBy : String → List ProductRow → Option (List ProductRow)

/-- The collaborators of a `getAllProducts` request: the database, what
`cache.get` answers (the parsed listing, if any) and whether `cache.setEx`
throws. -/
structure CatalogEnv where
  sql : SqlEngine
  dbFault : Nat → Option String
  cached : Except String (Option (List ProductRow × Pagination))
  cacheSet : Option String

/-- The `WHERE` conditions on `category` and `search`, which both queries
carry. -/
def categorySearchFilter (sql : SqlEngine) (q : ProductQuery) (p : ProductRow) : Bool :=
  (if truthyParam q.category ∧ q.category ≠ some "all" then
    decide (p.category = q.category.getD "") else true) &&
  (if truthyParam q.search then
    sql.ilike p.name ("%" ++ q.search.getD "" ++ "%") ||
      sql.ilike p.description ("%" ++ q.search.getD "" ++ "%")
   else true)

/-- The `WHERE` clause of the listing query as a condition on a row. -/
def listingFilter (sql : SqlEngine) (q : ProductQuery) (p : ProductRow) : Bool :=
  categorySearchFilter sql q p &&
  (match q.minPrice with
   | some minPrice => decide (p.price ≥ (minPrice : ℚ))
   | none => true) &&
  (match q.maxPrice with
   | some maxPrice => decide (p.price ≤ (maxPrice : ℚ))
   | none => true)

/-- The `WHERE` clause of the count query as a condition on a row. -/
def countFilter (sql : SqlEngine) (q : ProductQuery) (p : ProductRow) : Bool :=
  categorySearchFilter sql q p

/-- The expression `Math.ceil(total / limit)`. -/
def pagesOf (total limit : Nat) : Option Nat :=
  if limit = 0 then none else some ((total + limit - 1) / limit)

/-- Handler `getAllProducts` on the rows `products` of the table: the answer
from the cache when there is one, else the two queries, the write to the cache
and the answer from the database.  Every exception is answered 500 with
`Failed to get products`. -/
def getAllProducts (env : CatalogEnv) (products : List ProductRow) (q : ProductQuery) :
    Response :=
  match env.cached with
  | .error _ => ⟨500, .error "Failed to get products"⟩
  | .ok (some (rows, pagination)) => ⟨200, .productList "cache" rows pagination⟩
  | .ok none =>
    -- db.query(query, params)
    let offset : Int := ((q.page : Int) - 1) * q.limit
    match env.dbFault 0, env.sql.orderBy (orderByClause q.sort)
        (products.filter (listingFilter env.sql q)) with
    | none, some sorted =>
      if offset < 0 then ⟨500, .error "Failed to get products"⟩
      else
        let rows := (sorted.drop offset.toNat).take q.limit
        -- db.query(countQuery, countParams)
        match env.dbFault 1 with
        | some _ => ⟨500, .error "Failed to get products"⟩
        | none =>
          let total := (products.filter (countFilter env.sql q)).length
          let pagination : Pagination :=
            { page := q.page, limit := q.limit, total := total, pages := pagesOf total q.limit }
          match env.cacheSet with
          | some _ => ⟨500, .error "Failed to get products"⟩
          | none => ⟨200, .productList "database" rows pagination⟩
    | _, _ => ⟨500, .error "Failed to get products"⟩

/-! ## Sequences of requests -/

/-- The operations of the system that write orders, stock or payments, each with
the collaborators and arguments of the request. -/
inductive Op where
  | createOrder (env : Env) (req : OrderRequest)
  | cancelOrder (env : Env) (userId id : Nat)
  | processBkashPayment (env : Env) (userId order_id : Nat) (amount : ℚ) (phone : String)
  | processCardPayment (env : Env) (userId order_id : Nat) (amount : ℚ)
      (card_number card_holder expiry cvv : String)
  | processCOD (env : Env) (userId order_id : Nat)
  | refundPayment (env : Env) (payment_id : Nat) (reason : String)
  | updateOrderStatus (env : Env) (id : Nat) (status : String)

/-- Run one request against the committed store. -/
def Op.run (s : Store) : Op → Response × Store
  | .createOrder env req => DhakaCart.createOrder env s req
  | .cancelOrder env userId id => DhakaCart.cancelOrder env s userId id
  | .processBkashPayment env userId order_id amount phone =>
    DhakaCart.processBkashPayment env s userId order_id amount phone
  | .processCardPayment env userId order_id amount card_number card_holder expiry cvv =>
    DhakaCart.processCardPayment env s userId order_id amount card_number card_holder
      expiry cvv
  | .processCOD env userId order_id => DhakaCart.processCOD env s userId order_id
  | .refundPayment env payment_id reason => DhakaCart.refundPayment env s payment_id reason
  | .updateOrderStatus env id status => DhakaCart.updateOrderStatus env s id status

/-- Run a sequence of requests one after the other; the result is the committed
store after the last one. -/
def runOps (s : Store) (ops : List Op) : Store :=
  ops.foldl (fun st op => (op.run st).2) s

/-- An operation of the order controller: `createOrder` or `cancelOrder`. -/
def Op.isOrderOp : Op → Bool
  | .createOrder _ _ => true
  | .cancelOrder _ _ _ => true
  | _ => false

/-! ## rateLimiter -/

/-- Value stored in the `rateLimit` map for a client key. -/
structure RateEntry where
  count : Nat
  resetTime : Int
  deriving DecidableEq, Repr

/-- The `rateLimit` map, from client key to entry. -/
abbrev RateLimit := String → Option RateEntry

/-- What the limiter does with a request: call `next()` or answer 429 with
`error` and `retryAfter`. -/
inductive RateOutcome where
  | next
  | limited (error : String) (retryAfter : Int)
  deriving DecidableEq, Repr

/-- The expression `Math.ceil(d / 1000)` for an integer `d`. -/
def ceilDiv1000 (d : Int) : Int :=
  -((-d) / 1000)

/-- The middleware returned by `rateLimiter({ windowMs, max, message })`, applied
to a request of client `key` at time `now` (milliseconds): the outcome and the
map afterwards. -/
def rateLimiter (windowMs : Int) (max : Nat) (message : String) (rateLimit : RateLimit)
    (key : String) (now : Int) : RateOutcome × RateLimit :=
  match rateLimit key with
  | none =>
    (.next, fun k => if k = key then some { count := 1, resetTime := now + windowMs }
                     else rateLimit k)
  | some userData =>
    if now > userData.resetTime then
      (.next, fun k => if k = key then some { count := 1, resetTime := now + windowMs }
                       else rateLimit k)
    else if userData.count ≥ max then
      (.limited message (ceilDiv1000 (userData.resetTime - now)), rateLimit)
    else
      (.next, fun k => if k = key then some { userData with count := userData.count + 1 }
                       else rateLimit k)

/-- The number of requests of client `key`, among `reqs` (client key and time
of each request, served one after the other from the map `rateLimit`), that are
passed to `next()` and arrive no later than `deadline`. -/
def passedUntil (windowMs : Int) (max : Nat) (message : String) (key : String)
    (deadline : Int) : RateLimit → List (String × Int) → Nat
  | _, [] => 0
  | rateLimit, (k, now) :: rest =>
    let r := rateLimiter windowMs max message rateLimit k now
    (if k = key ∧ now ≤ deadline ∧ r.1 = RateOutcome.next then 1 else 0) +
      passedUntil windowMs max message key deadline r.2 rest

/-- The requests arrive with timestamps that do not decrease. -/
def timeOrdered (reqs : List (String × Int)) : Prop :=
  reqs.Pairwise (fun a b => a.2 ≤ b.2)

/-! ## errorHandler -/

/-- The fields of a thrown error that `errorHandler` reads (`none`, `0` and the
empty string are an absent or falsy field). -/
structure JsError where
  code : Option String
  name : String
  message : String
  status : Nat
  stack : String
  deriving DecidableEq, Repr

/-- Middleware `errorHandler`; `development` is
`process.env.NODE_ENV === 'development'`. -/
def errorHandler (development : Bool) (err : JsError) : Response :=
  if err.code = some "23505" then ⟨400, .error "Duplicate entry"⟩
  else if err.code = some "23503" then ⟨400, .error "Referenced record not found"⟩
  else if err.name = "ValidationError" then ⟨400, .error err.message⟩
  else if err.name = "JsonWebTokenError" then ⟨401, .error "Invalid token"⟩
  else if err.name = "TokenExpiredError" then ⟨401, .error "Token expired"⟩
  else
    let status := if err.status = 0 then 500 else err.status
    let msg := orElse err.message "Internal server error"
    if development then ⟨status, .errorWithStack msg err.stack⟩ else ⟨status, .error msg⟩

/-! ## Quantities and invariants used to state the properties -/

/-- Sum of the quantities of the cart lines that reference product `pid`. -/
def cartQty (items : List CartItem) (pid : Nat) : Int :=
  ((items.filter (fun c => c.product_id = pid)).map (fun c => c.quantity)).sum

/-- Sum of the quantities of the returned order lines that reference product
`pid`. -/
def lineQty (lines : List OrderLine) (pid : Nat) : Int :=
  ((lines.filter (fun l => l.product_id = pid)).map (fun l => l.quantity)).sum

/-- Sum of the quantities of the rows that reference product `pid`. -/
def rowsQty (rows : List OrderItem) (pid : Nat) : Int :=
  ((rows.filter (fun it => it.product_id = pid)).map (fun it => it.quantity)).sum

/-- Sum of the quantities of the `order_items` rows of order `orderId` that
reference product `pid`. -/
def orderQty (s : Store) (orderId pid : Nat) : Int :=
  rowsQty (s.selectItems orderId) pid

/-- The order item belongs to an order whose status is not cancelled. -/
def Store.live (s : Store) (it : OrderItem) : Bool :=
  s.orders.any (fun o => o.id = it.order_id ∧ o.status ≠ "cancelled")

/-- Sum of the quantities of all order items that reference product `pid` and
belong to an order whose status is not cancelled. -/
def reserved (s : Store) (pid : Nat) : Int :=
  ((s.order_items.filter (fun it => it.product_id = pid ∧ s.live it)).map
    (fun it => it.quantity)).sum

/-- The serial counter of `orders` is ahead of every `order_id` in use: a new
order gets an id that no existing order item carries. -/
def Store.Fresh (s : Store) : Prop :=
  ∀ it ∈ s.order_items, it.order_id < s.next_order_id

/-- Every product has a stock that is not negative. -/
def Store.StockNonneg (s : Store) : Prop :=
  ∀ p ∈ s.products, 0 ≤ p.stock

/-- The `order_items` rows the order with id `orderId` gets from the returned
lines. -/
def itemRows (orderId : Nat) (lines : List OrderLine) : List OrderItem :=
  lines.map (fun l =>
    { order_id := orderId, product_id := l.product_id, quantity := l.quantity,
      price := l.price })

/-- The sum of the subtotals of the lines as `createOrder` accumulates it: from 0,
line after line, with the addition of the runtime. -/
def subtotalSum (env : Env) (lines : List OrderLine) : ℚ :=
  lines.foldl (fun total l => env.add total l.subtotal) 0

/-- The order row written by `createOrder` for the returned lines. -/
def newOrder (env : Env) (s : Store) (userId : Nat) (lines : List OrderLine)
    (shipping_address payment_method : String) : Order :=
  { id := s.next_order_id, user_id := userId,
    total_amount := env.add (subtotalSum env lines) 100,
    shipping_address := shipping_address, payment_method := payment_method,
    status := "pending", shipping_cost := 100, payment_status := "pending" }

/-- The returned line `l` is the one of cart line `c`: it carries the line's
product id and quantity, and the name and price of the product row that the
`SELECT` for this line returns first. -/
def lineFor (s : Store) (c : CartItem) (l : OrderLine) : Prop :=
  l.product_id = c.product_id ∧ l.quantity = c.quantity ∧
    ∃ p tl, s.selectProduct c.product_id = p :: tl ∧ l.price = p.price ∧
      l.product_name = p.name

/-- The `order_items` row `row` of order `orderId` is the one of cart line `c`:
it carries the line's product id and quantity, and as price the price of the
product row that the `SELECT` for this line returns first. -/
def rowFor (s : Store) (orderId : Nat) (c : CartItem) (row : OrderItem) : Prop :=
  row.order_id = orderId ∧ row.product_id = c.product_id ∧ row.quantity = c.quantity ∧
    ∃ p tl, s.selectProduct c.product_id = p :: tl ∧ row.price = p.price

/-- The primary key of `products`: no two rows share an `id`. -/
def Store.ProductKey (s : Store) : Prop :=
  (s.products.map (fun p => p.id)).Nodup

/-- Every order item has a quantity that is not negative. -/
def Store.QtyNonneg (s : Store) : Prop :=
  ∀ it ∈ s.order_items, 0 ≤ it.quantity

/-- Every order has one of the five statuses. -/
def Store.StatusValid (s : Store) : Prop :=
  ∀ o ∈ s.orders, o.status ∈ validStatuses

/-- The operation is a `createOrder` whose body `validateOrder` passed on, or a
`cancelOrder`. -/
def Op.validated (engine : JsEngine) : Op → Prop
  | .createOrder _ req => validateOrder engine req.body = Validation.next
  | .cancelOrder _ _ _ => True
  | _ => False

/-- The store written by a committed `cancelOrder` on order `id`: every product
row gets back the quantities of the order's items that reference it, and every
order row with that id has status `cancelled`. -/
def cancelledStore (s : Store) (id : Nat) : Store :=
  { s with
    products := List.map (fun p => { p with stock := p.stock + orderQty s id p.id })
      s.products,
    orders := List.map (fun o => if o.id = id then { o with status := "cancelled" } else o)
      s.orders }

/-- The invariant behind the conservation of stock: the order ids in use are
below the serial counter, and row by row the products of `s` are the products of
`s0` with `stock + reserved` unchanged. -/
def Conserved (s0 s : Store) : Prop :=
  s.Fresh ∧
    List.Forall₂
      (fun p0 p => p.id = p0.id ∧ p.stock + reserved s p0.id = p0.stock + reserved s0 p0.id)
      s0.products s.products

/-- The errors that `validateOrder` reports for the line at position `index` of
a typed cart. -/
def lineErrors (index : Nat) (c : CartItem) : List String :=
  (if c.product_id = 0 ∨ c.quantity = 0 then
    ["Item " ++ toString (index + 1) ++ ": product_id and quantity required"] else []) ++
  (if c.quantity < 1 then
    ["Item " ++ toString (index + 1) ++ ": quantity must be at least 1"] else [])

/-- The errors that `validateOrder` reports for the lines of a typed cart, the
first of which is at position `index`. -/
def cartErrors : Nat → List CartItem → List String
  | _, [] => []
  | index, c :: rest => lineErrors index c ++ cartErrors (index + 1) rest

/-- The errors that `validateOrder` collects on the body of a typed request. -/
def requestErrors (req : OrderRequest) : List String :=
  (match req.items with
    | some (_ :: _) => []
    | _ => ["Order must contain at least one item"]) ++
  (match req.items with
    | some items => cartErrors 0 items
    | none => []) ++
  (match req.shipping_address with
    | some a =>
      if a = "" ∨ jsLength (jsTrim a) < 10 then
        ["Shipping address must be at least 10 characters"] else []
    | none => ["Shipping address must be at least 10 characters"])

/-- The invariant behind `stock >= 0`: no stock is negative, no two product rows
share an id, and no order item has a negative quantity. -/
def Store.Sound (s : Store) : Prop :=
  s.StockNonneg ∧ s.ProductKey ∧ s.QtyNonneg

/-! ## Sample data -/

/-- A store with two products and no order. -/
def demoStore : Store :=
  { products := [{ id := 1, name := "Laptop", price := 500, stock := 5 },
                 { id := 2, name := "Phone", price := 300, stock := 1 }],
    orders := [], order_items := [], payments := [],
    next_order_id := 1, next_payment_id := 1 }

/-- User 7 orders two laptops. -/
def demoRequest : OrderRequest :=
  { userId := 7, items := some [{ product_id := 1, quantity := 2 }],
    shipping_address := some "123 Main Street", payment_method := "cod" }

/-- The store after the order of `demoRequest` is committed. -/
def demoStoreOrdered : Store :=
  { products := [{ id := 1, name := "Laptop", price := 500, stock := 3 },
                 { id := 2, name := "Phone", price := 300, stock := 1 }],
    orders := [{ id := 1, user_id := 7, total_amount := 1100,
                 shipping_address := "123 Main Street", payment_method := "cod",
                 status := "pending", shipping_cost := 100, payment_status := "pending" }],
    order_items := [{ order_id := 1, product_id := 1, quantity := 2, price := 500 }],
    payments := [], next_order_id := 2, next_payment_id := 1 }

/-- User 7 orders three laptops on each of two lines: six in all, of a stock of
five. -/
def demoRequestTwice : OrderRequest :=
  { userId := 7,
    items := some [{ product_id := 1, quantity := 3 }, { product_id := 1, quantity := 3 }],
    shipping_address := some "123 Main Street", payment_method := "cod" }

/-- The working copy of `demoStore` after the first line of `demoRequestTwice`. -/
def demoStoreThreeTaken : Store :=
  { demoStore with
    products := [{ id := 1, name := "Laptop", price := 500, stock := 2 },
                 { id := 2, name := "Phone", price := 300, stock := 1 }] }

/-- User 7 orders a laptop and a product with id 9, which the store does not
have. -/
def demoRequestMissing : OrderRequest :=
  { userId := 7,
    items := some [{ product_id := 1, quantity := 1 }, { product_id := 9, quantity := 1 }],
    shipping_address := some "123 Main Street", payment_method := "cod" }

/-- The working copy of `demoStore` after the first line of `demoRequestMissing`. -/
def demoStoreOneTaken : Store :=
  { demoStore with
    products := [{ id := 1, name := "Laptop", price := 500, stock := 4 },
                 { id := 2, name := "Phone", price := 300, stock := 1 }] }

/-- The store after the order of `demoStoreOrdered` is cancelled. -/
def demoStoreCancelled : Store :=
  { demoStoreOrdered with
    products := demoStore.products,
    orders := [{ id := 1, user_id := 7, total_amount := 1100,
                 shipping_address := "123 Main Street", payment_method := "cod",
                 status := "cancelled", shipping_cost := 100, payment_status := "pending" }] }

/-- An environment in which the cache client fails on `keys`. -/
def Env.cacheDown : Env :=
  { Env.ok with cacheKeys := .error "The client is closed" }

/-- An environment in which the first statement after `BEGIN` fails in the
database driver. -/
def Env.dbDown : Env :=
  { Env.ok with
    dbFault := fun n => if n = 1 then some "Connection terminated unexpectedly" else none }

/-- An error thrown by the database driver when the connection is lost. -/
def demoDriverError : JsError :=
  { code := none, name := "Error", message := "Connection terminated unexpectedly",
    status := 0, stack := "Error: Connection terminated unexpectedly\n    at Connection.emit" }

/-- A sequence of calls on `demoStore`: an order, its cancellation, and the same
order again. -/
def demoOps : List Op :=
  [.createOrder Env.ok demoRequest, .cancelOrder Env.ok 7 1, .createOrder Env.ok demoRequest]

/-- An engine for which every comparison left to it is false. -/
def demoEngine : JsEngine :=
  { lt := fun _ _ => some false, isNaN := fun _ => some false }

/-- On `demoStore`: an order is placed and cancelled, the caller then selects
cash on delivery for the cancelled order, and cancels it once more. -/
def demoOpsCancelTwice : List Op :=
  [.createOrder Env.ok demoRequest, .cancelOrder Env.ok 7 1, .processCOD Env.ok 7 1,
   .cancelOrder Env.ok 7 1]

/-- On `demoStore`: an order is placed with cash on delivery and the admin
refunds its payment. -/
def demoOpsRefund : List Op :=
  [.createOrder Env.ok demoRequest, .processCOD Env.ok 7 1,
   .refundPayment Env.ok 1 "customer request"]

/-- On `demoStore`: an order is placed with cash on delivery and the admin marks
it delivered. -/
def demoOpsDelivered : List Op :=
  [.createOrder Env.ok demoRequest, .processCOD Env.ok 7 1,
   .updateOrderStatus Env.ok 1 "delivered"]

/-- A body whose cart holds `null`. -/
def demoBodyNullItem : JsVal :=
  .obj [("items", .arr [.null]), ("shipping_address", .str "123 Main Street")]

/-- A body whose `items` is an object. -/
def demoBodyObjectItems : JsVal :=
  .obj [("items", .obj []), ("shipping_address", .str "123 Main Street")]

/-- A product body with an empty name and `true` as price. -/
def demoBodyEmptyName : JsVal :=
  .obj [("name", .str ""), ("price", .bool true)]

/-- A body whose `items` is a string. -/
def demoBodyStringItems : JsVal :=
  .obj [("items", .str "laptop"), ("shipping_address", .str "123 Main Street")]

/-- A body with a valid cart whose `shipping_address` is a number. -/
def demoBodyNumberAddress : JsVal :=
  .obj [("items", .arr [.obj [("product_id", .num 1), ("quantity", .num 2)]]),
        ("shipping_address", .num 1234567890)]

/-- A body whose cart holds a valid line followed by `null`. -/
def demoBodyNullAfterLine : JsVal :=
  .obj [("items", .arr [.obj [("product_id", .num 1), ("quantity", .num 2)], .null]),
        ("shipping_address", .str "123 Main Street")]

/-- A `products` table with a laptop at 500 and a phone at 300. -/
def demoCatalog : List ProductRow :=
  [{ id := 1, name := "Laptop", price := 500, stock := 5, description := "A laptop",
     category := "laptops", created_at := 2 },
   { id := 2, name := "Phone", price := 300, stock := 1, description := "A phone",
     category := "smartphones", created_at := 1 }]

/-- The five `ORDER BY` clauses that `sortOptions` and the default provide. -/
def fixedClauses : List String :=
  ["price ASC", "price DESC", "name ASC", "name DESC", "created_at DESC"]

/-- A database that returns the rows in stored order for the five fixed clauses
and rejects every other clause, with nothing in the cache. -/
def demoCatalogEnv : CatalogEnv :=
  { sql := { ilike := fun _ _ => false,
             orderBy := fun clause rows => if clause ∈ fixedClauses then some rows else none },
    dbFault := fun _ => none, cached := .ok none, cacheSet := none }

/-- The request `GET /api/products?sort=constructor`. -/
def demoQueryConstructor : ProductQuery :=
  { category := none, search := none, sort := some "constructor", minPrice := none,
    maxPrice := none, page := 1, limit := 20 }

/-- The request `GET /api/products?minPrice=400&limit=1`. -/
def demoQueryMinPrice : ProductQuery :=
  { category := none, search := none, sort := none, minPrice := some 400,
    maxPrice := none, page := 1, limit := 1 }

/-- Rounding to double precision of an integer of absolute value below `2^54`:
up to `2^53` every integer is a double; above, the doubles are the even
integers, and an odd integer, half way between two of them, goes to the multiple
of 4 (round half to even). -/
def roundDouble (n : Int) : Int :=
  if n.natAbs ≤ 2 ^ 53 then n
  else if n % 2 = 0 then n
  else if (n + 1) % 4 = 0 then n + 1
  else n - 1

/-- An environment in which no collaborator fails and the arithmetic on amounts
rounds as double precision does where the exact result is an integer of absolute
value below `2^54`; the samples use it on such amounts only. -/
def Env.double : Env :=
  { Env.ok with
    mul := fun a b => if (a * b).den = 1 then roundDouble (a * b).num else a * b,
    add := fun a b => if (a + b).den = 1 then roundDouble (a + b).num else a + b }

/-- A store whose product has the price `2^53 + 1`, which is not a double. -/
def demoStoreBigPrice : Store :=
  { products := [{ id := 1, name := "Laptop", price := 9007199254740993, stock := 5 }],
    orders := [], order_items := [], payments := [],
    next_order_id := 1, next_payment_id := 1 }

/-- User 7 orders one laptop. -/
def demoRequestOne : OrderRequest :=
  { userId := 7, items := some [{ product_id := 1, quantity := 1 }],
    shipping_address := some "123 Main Street", payment_method := "cod" }

/-! # Properties -/

/-! ## Lemmas on createOrder -/

theorem cartQty_cons (c : CartItem) (rest : List CartItem) (pid : Nat) :
    cartQty (c :: rest) pid =
      (if c.product_id = pid then c.quantity else 0) + cartQty rest pid := by
  unfold cartQty
  by_cases h : c.product_id = pid <;> simp [List.filter_cons, h]

theorem selectProduct_decStock (w : Store) (q : Int) (id pid : Nat) :
    (w.decStock q id).selectProduct pid =
      (w.selectProduct pid).map
        (fun p => if p.id = id then { p with stock := p.stock - q } else p) := by
  simp only [Store.selectProduct, Store.decStock, List.filter_map]
  congr 1
  apply List.filter_congr
  intro p _
  simp only [Function.comp]
  by_cases h : p.id = id <;> simp [h]

theorem lineFor_decStock (w : Store) (q : Int) (id : Nat) (c : CartItem) (l : OrderLine)
    (h : lineFor (w.decStock q id) c l) : lineFor w c l := by
  obtain ⟨h1, h2, p1, tl1, hsel, hprice, hname⟩ := h
  refine ⟨h1, h2, ?_⟩
  rw [selectProduct_decStock] at hsel
  cases hs : w.selectProduct c.product_id with
  | nil => rw [hs] at hsel; simp at hsel
  | cons p tl =>
    rw [hs] at hsel
    simp only [List.map_cons, List.cons.injEq] at hsel
    refine ⟨p, tl, rfl, ?_, ?_⟩
    · rw [hprice, ← hsel.1]; by_cases hp : p.id = id <;> simp [hp]
    · rw [hname, ← hsel.1]; by_cases hp : p.id = id <;> simp [hp]

/-- What a successful run of the item loop of `createOrder` computes. -/
theorem createOrder.loop_ok (env : Env) :
    ∀ (items : List CartItem) (w : Store) (n : Nat) (total : ℚ) (acc : List OrderLine)
      (w' : Store) (n' : Nat) (total' : ℚ) (acc' : List OrderLine),
      createOrder.loop env items w n total acc = .ok (w', n', total', acc') →
      ∃ lines : List OrderLine,
        acc' = acc ++ lines ∧
        total' = lines.foldl (fun t l => env.add t l.subtotal) total ∧
        (∀ l ∈ lines, l.subtotal = env.mul l.price l.quantity) ∧
        (∀ pid, lineQty lines pid = cartQty items pid) ∧
        List.Forall₂ (lineFor w) items lines ∧
        n' = n + 2 * items.length ∧
        w' = { w with
          products := List.map (fun p => { p with stock := p.stock - cartQty items p.id })
            w.products } := by
  intro items
  induction items with
  | nil =>
    intro w n total acc w' n' total' acc' h
    simp only [createOrder.loop, Except.ok.injEq, Prod.mk.injEq] at h
    obtain ⟨rfl, rfl, rfl, rfl⟩ := h
    refine ⟨[], by simp, by simp, by simp, by simp [lineQty, cartQty], List.Forall₂.nil,
      rfl, ?_⟩
    simp [cartQty]
  | cons item rest ih =>
    intro w n total acc w' n' total' acc' h
    unfold createOrder.loop at h
    split at h
    · exact absurd h (by simp)
    · split at h
      · exact absurd h (by simp)
      · rename_i product tl hsel
        split at h
        · exact absurd h (by simp)
        · split at h
          · exact absurd h (by simp)
          · have hmem : product ∈ w.selectProduct item.product_id := by
              rw [hsel]; exact List.mem_cons_self _ _
            have hid : product.id = item.product_id := by
              simpa [Store.selectProduct] using (List.mem_filter.mp hmem).2
            obtain ⟨lines, hacc, htot, hsub, hqty, hfor, hn, hw⟩ := ih _ _ _ _ _ _ _ _ h
            refine ⟨({ product_id := product.id, product_name := product.name,
                       quantity := item.quantity, price := product.price,
                       subtotal := env.mul product.price item.quantity } : OrderLine) ::
                lines,
              ?_, ?_, ?_, ?_, ?_, ?_, ?_⟩
            · simpa using hacc
            · rw [htot]; rfl
            · intro l hl
              rcases List.mem_cons.mp hl with rfl | hl
              · rfl
              · exact hsub l hl
            · intro pid
              have := hqty pid
              rw [cartQty_cons, ← this]
              by_cases hp : item.product_id = pid <;>
                simp [lineQty, List.filter_cons, hid, hp]
            · refine List.Forall₂.cons ⟨hid, rfl, product, tl, hsel, rfl, rfl⟩ ?_
              exact hfor.imp (fun c l hcl => lineFor_decStock w _ _ c l hcl)
            · rw [hn]; simp; ring
            · rw [hw]
              simp only [Store.decStock, List.map_map]
              congr 1
              apply List.map_congr_left
              intro p _
              simp only [Function.comp, cartQty_cons, hid]
              by_cases hp : p.id = item.product_id
              · rw [if_pos hp, if_pos hp.symm]
                simp only [Product.mk.injEq, true_and]
                ring
              · rw [if_neg hp, if_neg (fun h => hp h.symm)]
                simp

/-- What a successful run of the loop inserting the order items computes. -/
theorem createOrder.insertItems_ok (env : Env) (orderId : Nat) :
    ∀ (lines : List OrderLine) (w : Store) (n : Nat) (w' : Store) (n' : Nat),
      createOrder.insertItems env orderId lines w n = .ok (w', n') →
      w' = { w with order_items := w.order_items ++ itemRows orderId lines } ∧
        n' = n + lines.length := by
  intro lines
  induction lines with
  | nil =>
    intro w n w' n' h
    simp only [createOrder.insertItems, Except.ok.injEq, Prod.mk.injEq] at h
    obtain ⟨rfl, rfl⟩ := h
    simp [itemRows]
  | cons l rest ih =>
    intro w n w' n' h
    unfold createOrder.insertItems at h
    split at h
    · exact absurd h (by simp)
    · obtain ⟨hw, hn⟩ := ih _ _ _ _ h
      refine ⟨?_, by rw [hn]; simp; ring⟩
      rw [hw]
      simp [Store.insertOrderItem, itemRows]

/-- What a committed transaction of `createOrder` has written. -/
theorem createOrder.transaction_ok (env : Env) (s : Store) (userId : Nat)
    (items : List CartItem) (addr pm : String) (w : Store) (order : Order)
    (lines : List OrderLine)
    (h : createOrder.transaction env s userId items addr pm = .ok (w, order, lines)) :
    order = newOrder env s userId lines addr pm ∧
      (∀ l ∈ lines, l.subtotal = env.mul l.price l.quantity) ∧
      (∀ pid, lineQty lines pid = cartQty items pid) ∧
      List.Forall₂ (lineFor s) items lines ∧
      w = { products := List.map
              (fun p => { p with stock := p.stock - cartQty items p.id }) s.products,
            orders := s.orders ++ [order],
            order_items := s.order_items ++ itemRows order.id lines,
            payments := s.payments,
            next_order_id := s.next_order_id + 1,
            next_payment_id := s.next_payment_id } := by
  unfold createOrder.transaction at h
  split at h
  · exact absurd h (by simp)
  · split at h
    · exact absurd h (by simp)
    · rename_i w0 n0 total0 lines0 hloop
      obtain ⟨ls, hacc, htot, hsub, hqty, hfor, hn, hw⟩ :=
        createOrder.loop_ok env _ _ _ _ _ _ _ _ _ hloop
      simp only [List.nil_append] at hacc
      subst hacc
      split at h
      · exact absurd h (by simp)
      · simp only [Store.insertOrder] at h
        split at h
        · exact absurd h (by simp)
        · rename_i w2 n2 hins
          obtain ⟨hw2, -⟩ := createOrder.insertItems_ok env _ _ _ _ _ _ hins
          split at h
          · exact absurd h (by simp)
          · simp only [Except.ok.injEq, Prod.mk.injEq] at h
            obtain ⟨rfl, rfl, rfl⟩ := h
            subst hw
            refine ⟨?_, hsub, hqty, hfor, ?_⟩
            · simp [newOrder, subtotalSum, htot]
            · rw [hw2]

/-- A 201 answer of `createOrder` comes from a committed transaction: the answer
carries the order row and the lines of that transaction and the committed store
is the one the transaction wrote. -/
theorem createOrder_created (env : Env) (s : Store) (req : OrderRequest)
    (h : (createOrder env s req).1.status = 201) :
    ∃ items addr w order lines,
      req.items = some items ∧ req.shipping_address = some addr ∧
      createOrder.transaction env s req.userId items addr req.payment_method =
        .ok (w, order, lines) ∧
      createOrder env s req =
        (⟨201, .orderCreated "Order created successfully" order lines⟩, w) := by
  unfold createOrder at h ⊢
  split at h
  · simp at h
  · simp at h
  · rename_i item rest hitems
    split at h
    · simp at h
    · rename_i addr haddr
      split at h
      · simp at h
      · split at h
        · simp at h
        · rename_i w order lines htx
          split at h
          · simp at h
          · rename_i hcache
            refine ⟨item :: rest, addr, w, order, lines, hitems, haddr, htx, ?_⟩
            rw [if_neg (by assumption)]

/-- The committed store after `createOrder` is the store before the call or the
store written by a committed transaction. -/
theorem createOrder_store (env : Env) (s : Store) (req : OrderRequest) :
    (createOrder env s req).2 = s ∨
      ∃ items addr w order lines,
        req.items = some items ∧ req.shipping_address = some addr ∧
        createOrder.transaction env s req.userId items addr req.payment_method =
          .ok (w, order, lines) ∧
        (createOrder env s req).2 = w := by
  unfold createOrder
  split
  · exact Or.inl rfl
  · exact Or.inl rfl
  · rename_i item rest hitems
    split
    · exact Or.inl rfl
    · rename_i addr haddr
      split
      · exact Or.inl rfl
      · split
        · exact Or.inl rfl
        · rename_i w order lines htx
          refine Or.inr ⟨item :: rest, addr, w, order, lines, hitems, haddr, htx, ?_⟩
          split <;> rfl

/-! ## createOrder: totals, stock and rows -/

theorem foldl_add_eq_sum (lines : List OrderLine) :
    ∀ total : ℚ, lines.foldl (fun t l => t + l.subtotal) total =
      total + (lines.map (fun l => l.subtotal)).sum := by
  induction lines with
  | nil => intro total; simp
  | cons l lines ih =>
    intro total
    rw [List.foldl_cons, ih, List.map_cons, List.sum_cons]
    ring

/-- C1: when `createOrder` answers 201, the order row it wrote has
`total_amount` equal to the sum of the subtotals of the returned lines,
accumulated from 0 line after line, plus the shipping cost 100, both additions
being those of the runtime; its `shipping_cost` is 100; and the subtotal of each
returned line is the runtime's product of the price of the product read for that
line and the line's quantity.  Where the addition of the runtime is exact, the
total is the exact sum of the subtotals plus 100. -/
theorem createOrder_total_amount (env : Env) (s : Store) (req : OrderRequest)
    (h : (createOrder env s req).1.status = 201) :
    ∃ items order lines,
      req.items = some items ∧
      (createOrder env s req).1.body =
        Body.orderCreated "Order created successfully" order lines ∧
      order ∈ (createOrder env s req).2.orders ∧
      order.total_amount =
        env.add (lines.foldl (fun total l => env.add total l.subtotal) 0) 100 ∧
      order.shipping_cost = 100 ∧
      (∀ l ∈ lines, l.subtotal = env.mul l.price l.quantity) ∧
      List.Forall₂ (lineFor s) items lines ∧
      ((∀ a b, env.add a b = a + b) →
        order.total_amount = (lines.map (fun l => l.subtotal)).sum + 100) := by
  obtain ⟨items, addr, w, order, lines, hitems, -, htx, hres⟩ :=
    createOrder_created env s req h
  obtain ⟨hord, hsub, -, hfor, hw⟩ :=
    createOrder.transaction_ok env s req.userId items addr req.payment_method w order lines htx
  refine ⟨items, order, lines, hitems, by rw [hres], ?_, ?_, ?_, hsub, hfor, ?_⟩
  · rw [hres, hw]; simp
  · rw [hord]; rfl
  · rw [hord]; rfl
  · intro hadd
    have hfun : (fun (total : ℚ) (l : OrderLine) => env.add total l.subtotal) =
        fun total l => total + l.subtotal := by
      funext total l
      exact hadd _ _
    rw [hord]
    simp only [newOrder, subtotalSum]
    rw [hadd, hfun, foldl_add_eq_sum, zero_add]

theorem createOrder_total_amount_witness :
    (createOrder Env.double demoStoreBigPrice demoRequestOne).1.status = 201 ∧
    ((createOrder Env.double demoStoreBigPrice demoRequestOne).2.orders.map
      (fun o => o.total_amount)) = [9007199254741092] ∧
    ∃ items order lines,
      demoRequestOne.items = some items ∧
      (createOrder Env.double demoStoreBigPrice demoRequestOne).1.body =
        Body.orderCreated "Order created successfully" order lines ∧
      order ∈ (createOrder Env.double demoStoreBigPrice demoRequestOne).2.orders ∧
      order.total_amount =
        Env.double.add (lines.foldl (fun total l => Env.double.add total l.subtotal) 0) 100 ∧
      order.shipping_cost = 100 ∧
      (∀ l ∈ lines, l.subtotal = Env.double.mul l.price l.quantity) ∧
      List.Forall₂ (lineFor demoStoreBigPrice) items lines ∧
      ((∀ a b, Env.double.add a b = a + b) →
        order.total_amount = (lines.map (fun l => l.subtotal)).sum + 100) :=
  ⟨by decide, by decide!,
    createOrder_total_amount Env.double demoStoreBigPrice demoRequestOne (by decide)⟩

theorem cartQty_eq_zero (items : List CartItem) (pid : Nat)
    (h : ∀ c ∈ items, c.product_id ≠ pid) : cartQty items pid = 0 := by
  unfold cartQty
  rw [List.filter_eq_nil_iff.mpr]
  · rfl
  · intro c hc
    simpa using h c hc

/-- C5: when `createOrder` answers 201, the stock of every product row after the
call is its stock before the call minus the sum of the quantities of the cart
lines that reference the product; a product that no cart line references keeps
its stock, and no product row is added, removed or otherwise changed. -/
theorem createOrder_stock (env : Env) (s : Store) (req : OrderRequest)
    (h : (createOrder env s req).1.status = 201) :
    ∃ items,
      req.items = some items ∧
      (createOrder env s req).2.products =
        s.products.map (fun p => { p with stock := p.stock - cartQty items p.id }) ∧
      ∀ pid, (∀ c ∈ items, c.product_id ≠ pid) → cartQty items pid = 0 := by
  obtain ⟨items, addr, w, order, lines, hitems, -, htx, hres⟩ :=
    createOrder_created env s req h
  obtain ⟨-, -, -, -, hw⟩ :=
    createOrder.transaction_ok env s req.userId items addr req.payment_method w order lines htx
  refine ⟨items, hitems, ?_, fun pid hp => cartQty_eq_zero items pid hp⟩
  rw [hres, hw]

theorem createOrder_stock_witness :
    (createOrder Env.ok demoStore demoRequest).1.status = 201 ∧
    ∃ items,
      demoRequest.items = some items ∧
      (createOrder Env.ok demoStore demoRequest).2.products =
        demoStore.products.map (fun p => { p with stock := p.stock - cartQty items p.id }) ∧
      ∀ pid, (∀ c ∈ items, c.product_id ≠ pid) → cartQty items pid = 0 :=
  ⟨by decide, createOrder_stock Env.ok demoStore demoRequest (by decide)⟩

/-- C12: when `createOrder` answers 201, the `orders` table has gained exactly
one row, with status `pending` and the caller's user id, and the `order_items`
table has gained exactly one row per cart line, in cart order, each with the id
of the new order, the line's product id and quantity, and as price the price of
the product row read for that line. -/
theorem createOrder_rows (env : Env) (s : Store) (req : OrderRequest)
    (h : (createOrder env s req).1.status = 201) :
    ∃ items order rows,
      req.items = some items ∧
      (createOrder env s req).2.orders = s.orders ++ [order] ∧
      order.status = "pending" ∧ order.user_id = req.userId ∧
      (createOrder env s req).2.order_items = s.order_items ++ rows ∧
      List.Forall₂ (rowFor s order.id) items rows := by
  obtain ⟨items, addr, w, order, lines, hitems, -, htx, hres⟩ :=
    createOrder_created env s req h
  obtain ⟨hord, -, -, hfor, hw⟩ :=
    createOrder.transaction_ok env s req.userId items addr req.payment_method w order lines htx
  refine ⟨items, order, itemRows order.id lines, hitems, ?_, ?_, ?_, ?_, ?_⟩
  · rw [hres, hw]
  · rw [hord]; rfl
  · rw [hord]; rfl
  · rw [hres, hw]
  · unfold itemRows
    rw [List.forall₂_map_right_iff]
    refine hfor.imp ?_
    rintro c l ⟨h1, h2, p, tl, hsel, hprice, -⟩
    exact ⟨rfl, h1, h2, p, tl, hsel, hprice⟩

theorem createOrder_rows_witness :
    (createOrder Env.ok demoStore demoRequest).1.status = 201 ∧
    ∃ items order rows,
      demoRequest.items = some items ∧
      (createOrder Env.ok demoStore demoRequest).2.orders = demoStore.orders ++ [order] ∧
      order.status = "pending" ∧ order.user_id = demoRequest.userId ∧
      (createOrder Env.ok demoStore demoRequest).2.order_items =
        demoStore.order_items ++ rows ∧
      List.Forall₂ (rowFor demoStore order.id) items rows :=
  ⟨by decide, createOrder_rows Env.ok demoStore demoRequest (by decide)⟩

/-! ## createOrder: failures -/

theorem orElse_append (a b fallback : String) (h : a ≠ "") :
    orElse (a ++ b) fallback = a ++ b := by
  unfold orElse
  rw [if_neg]
  intro hab
  apply h
  have h1 : (a ++ b).data = [] := by rw [hab]
  rw [String.data_append, List.append_eq_nil] at h1
  exact String.ext h1.1

/-- Processing `pre ++ rest` is processing `pre`, then `rest` from where `pre`
ended. -/
theorem createOrder.loop_append (env : Env) (rest : List CartItem) :
    ∀ (pre : List CartItem) (w : Store) (n : Nat) (total : ℚ) (acc : List OrderLine),
      createOrder.loop env (pre ++ rest) w n total acc =
        match createOrder.loop env pre w n total acc with
        | .error e => .error e
        | .ok (w1, n1, total1, acc1) => createOrder.loop env rest w1 n1 total1 acc1 := by
  intro pre
  induction pre with
  | nil => intro w n total acc; simp [createOrder.loop]
  | cons item pre ih =>
    intro w n total acc
    simp only [List.cons_append, createOrder.loop]
    cases env.dbFault n with
    | some e => rfl
    | none =>
      simp only []
      cases w.selectProduct item.product_id with
      | nil => rfl
      | cons product tl =>
        simp only []
        by_cases h3 : product.stock < item.quantity
        · simp only [h3, if_true]
        · simp only [h3, if_false]
          cases env.dbFault (n + 1) with
          | some e => rfl
          | none => exact ih _ _ _ _

/-- An exception in the item loop makes the transaction fail with it. -/
theorem createOrder.transaction_error (env : Env) (s : Store) (userId : Nat)
    (items : List CartItem) (addr pm e : String) (hbegin : env.dbFault 0 = none)
    (h : createOrder.loop env items s 1 0 [] = .error e) :
    createOrder.transaction env s userId items addr pm = .error e := by
  unfold createOrder.transaction
  rw [hbegin, h]

/-- A transaction that fails is rolled back: the answer is 500 with the message
of the exception and the committed store is the one before the call. -/
theorem createOrder_rollback (env : Env) (s : Store) (req : OrderRequest)
    (items : List CartItem) (addr e : String)
    (hitems : req.items = some items) (hne : items ≠ [])
    (haddr : req.shipping_address = some addr) (haddr0 : addr ≠ "")
    (h : createOrder.transaction env s req.userId items addr req.payment_method = .error e) :
    createOrder env s req = (⟨500, .error (orElse e "Failed to create order")⟩, s) := by
  unfold createOrder
  cases items with
  | nil => exact absurd rfl hne
  | cons item rest =>
    simp only [hitems, haddr]
    rw [if_neg haddr0]
    simp only [h]

/-- C4: if, when the cart lines are processed in order, the lines `pre` are
processed and the next line asks for more than the stock its product has at that
point (after the decrements of `pre`), then `createOrder` answers 500 with the
`Insufficient stock` error and the committed store is exactly the store before
the call: no order row, no order item row, no stock changed. -/
theorem createOrder_insufficient_stock (env : Env) (s : Store) (req : OrderRequest)
    (pre post : List CartItem) (line : CartItem) (addr : String)
    (w : Store) (n : Nat) (total : ℚ) (acc : List OrderLine)
    (product : Product) (tl : List Product)
    (hitems : req.items = some (pre ++ line :: post))
    (haddr : req.shipping_address = some addr) (haddr0 : addr ≠ "")
    (hbegin : env.dbFault 0 = none)
    (hpre : createOrder.loop env pre s 1 0 [] = .ok (w, n, total, acc))
    (hquery : env.dbFault n = none)
    (hsel : w.selectProduct line.product_id = product :: tl)
    (hstock : product.stock < line.quantity) :
    createOrder env s req =
      (⟨500, .error ("Insufficient stock for " ++ product.name)⟩, s) := by
  have hloop : createOrder.loop env (pre ++ line :: post) s 1 0 [] =
      .error ("Insufficient stock for " ++ product.name) := by
    rw [createOrder.loop_append, hpre]
    simp only
    unfold createOrder.loop
    simp only [hquery, hsel]
    rw [if_pos hstock]
  have htx := createOrder.transaction_error env s req.userId _ addr req.payment_method _
    hbegin hloop
  rw [createOrder_rollback env s req _ addr _ hitems (by simp) haddr haddr0 htx,
    orElse_append _ _ _ (by decide)]

/-- C15: if, when the cart lines are processed in order, the lines `pre` are
processed and the next line references a product id that no product row of the
store carries, then `createOrder` answers 500 with the error
`Product <id> not found` and the committed store is the store before the call. -/
theorem createOrder_product_not_found (env : Env) (s : Store) (req : OrderRequest)
    (pre post : List CartItem) (line : CartItem) (addr : String)
    (w : Store) (n : Nat) (total : ℚ) (acc : List OrderLine)
    (hitems : req.items = some (pre ++ line :: post))
    (haddr : req.shipping_address = some addr) (haddr0 : addr ≠ "")
    (hbegin : env.dbFault 0 = none)
    (hpre : createOrder.loop env pre s 1 0 [] = .ok (w, n, total, acc))
    (hquery : env.dbFault n = none)
    (hmissing : ∀ p ∈ s.products, p.id ≠ line.product_id) :
    createOrder env s req =
      (⟨500, .error ("Product " ++ toString line.product_id ++ " not found")⟩, s) := by
  have hsel : w.selectProduct line.product_id = [] := by
    obtain ⟨-, -, -, -, -, -, -, hw⟩ := createOrder.loop_ok env _ _ _ _ _ _ _ _ _ hpre
    rw [hw]
    simp only [Store.selectProduct, List.filter_eq_nil_iff, List.mem_map]
    rintro p ⟨p0, hp0, rfl⟩
    simpa using hmissing p0 hp0
  have hloop : createOrder.loop env (pre ++ line :: post) s 1 0 [] =
      .error ("Product " ++ toString line.product_id ++ " not found") := by
    rw [createOrder.loop_append, hpre]
    simp only
    unfold createOrder.loop
    simp only [hquery, hsel]
  have htx := createOrder.transaction_error env s req.userId _ addr req.payment_method _
    hbegin hloop
  rw [createOrder_rollback env s req _ addr _ hitems (by simp) haddr haddr0 htx,
    String.append_assoc, orElse_append _ _ _ (by decide)]

/-! ## cancelOrder -/

theorem rowsQty_cons (it : OrderItem) (rest : List OrderItem) (pid : Nat) :
    rowsQty (it :: rest) pid =
      (if it.product_id = pid then it.quantity else 0) + rowsQty rest pid := by
  unfold rowsQty
  by_cases h : it.product_id = pid <;> simp [List.filter_cons, h]

/-- What a successful run of the restoring loop of `cancelOrder` computes. -/
theorem cancelOrder.restore_ok (env : Env) :
    ∀ (rows : List OrderItem) (w : Store) (n : Nat) (w' : Store) (n' : Nat),
      cancelOrder.restore env rows w n = .ok (w', n') →
      w' = { w with
        products := List.map (fun p => { p with stock := p.stock + rowsQty rows p.id })
          w.products } ∧
        n' = n + rows.length := by
  intro rows
  induction rows with
  | nil =>
    intro w n w' n' h
    simp only [cancelOrder.restore, Except.ok.injEq, Prod.mk.injEq] at h
    obtain ⟨rfl, rfl⟩ := h
    simp [rowsQty]
  | cons it rest ih =>
    intro w n w' n' h
    unfold cancelOrder.restore at h
    split at h
    · exact absurd h (by simp)
    · obtain ⟨hw, hn⟩ := ih _ _ _ _ h
      refine ⟨?_, by rw [hn]; simp; ring⟩
      rw [hw]
      simp only [Store.incStock, List.map_map]
      congr 1
      apply List.map_congr_left
      intro p _
      simp only [Function.comp, rowsQty_cons]
      by_cases hp : p.id = it.product_id
      · rw [if_pos hp, if_pos hp.symm]
        simp only [Product.mk.injEq, true_and]
        ring
      · rw [if_neg hp, if_neg (fun h => hp h.symm)]
        simp

/-- Without a failing statement the restoring loop runs to its end. -/
theorem cancelOrder.restore_total (env : Env) (hfault : ∀ k, env.dbFault k = none) :
    ∀ (rows : List OrderItem) (w : Store) (n : Nat),
      ∃ w' n', cancelOrder.restore env rows w n = .ok (w', n') := by
  intro rows
  induction rows with
  | nil => intro w n; exact ⟨w, n, rfl⟩
  | cons it rest ih =>
    intro w n
    unfold cancelOrder.restore
    rw [hfault n]
    exact ih _ _

/-- What a committed transaction of `cancelOrder` has read and written. -/
theorem cancelOrder.transaction_cancelled (env : Env) (s : Store) (userId id : Nat) (w : Store)
    (h : cancelOrder.transaction env s userId id = .ok w) :
    ∃ order tl, s.selectOrder id userId = order :: tl ∧
      (order.status = "pending" ∨ order.status = "processing") ∧
      w = cancelledStore s id := by
  unfold cancelOrder.transaction at h
  split at h
  · exact absurd h (by simp)
  · split at h
    · exact absurd h (by simp)
    · split at h
      · exact absurd h (by simp)
      · rename_i order tl hsel
        split at h
        · exact absurd h (by simp)
        · rename_i hst
          split at h
          · exact absurd h (by simp)
          · split at h
            · exact absurd h (by simp)
            · rename_i w1 n1 hres
              obtain ⟨hw1, -⟩ := cancelOrder.restore_ok env _ _ _ _ _ hres
              split at h
              · exact absurd h (by simp)
              · split at h
                · exact absurd h (by simp)
                · simp only [Except.ok.injEq] at h
                  refine ⟨order, tl, hsel, ?_, ?_⟩
                  · by_contra hcon
                    push_neg at hcon
                    exact hst hcon
                  · rw [← h, hw1]
                    simp [Store.setStatus, cancelledStore, orderQty]

/-- Without a failing statement, the transaction of `cancelOrder` on an order of
the caller that is pending or processing commits. -/
theorem cancelOrder.transaction_commits (env : Env) (s : Store) (userId id : Nat)
    (order : Order) (tl : List Order) (hfault : ∀ k, env.dbFault k = none)
    (hsel : s.selectOrder id userId = order :: tl)
    (hst : order.status = "pending" ∨ order.status = "processing") :
    cancelOrder.transaction env s userId id = .ok (cancelledStore s id) := by
  have key : ∃ w, cancelOrder.transaction env s userId id = .ok w := by
    obtain ⟨w1, n1, hres⟩ := cancelOrder.restore_total env hfault (s.selectItems id) s 3
    unfold cancelOrder.transaction
    simp only [hfault, hsel, hres]
    rw [if_neg]
    · exact ⟨_, rfl⟩
    · rintro ⟨h1, h2⟩
      rcases hst with h | h
      · exact h1 h
      · exact h2 h
  obtain ⟨w, hw⟩ := key
  obtain ⟨-, -, -, -, rfl⟩ := cancelOrder.transaction_cancelled env s userId id w hw
  exact hw

/-- The committed store after `cancelOrder` is the store before the call or the
store written by a committed transaction. -/
theorem cancelOrder_store (env : Env) (s : Store) (userId id : Nat) :
    (cancelOrder env s userId id).2 = s ∨
      (cancelOrder.transaction env s userId id = .ok (cancelledStore s id) ∧
        (cancelOrder env s userId id).2 = cancelledStore s id) := by
  unfold cancelOrder
  cases h : cancelOrder.transaction env s userId id with
  | error e => exact Or.inl rfl
  | ok w =>
    obtain ⟨-, -, -, -, rfl⟩ := cancelOrder.transaction_cancelled env s userId id w h
    exact Or.inr ⟨rfl, rfl⟩

/-- C6: for an order of the caller whose status is pending or processing,
`cancelOrder` (with no statement failing) answers with success; afterwards every
order row with that id has status `cancelled` and every other order row is
unchanged, the stock of every product row has grown by the sum of the quantities
of the order's items that reference the product, and no order item row has
changed. -/
theorem cancelOrder_restores_stock (env : Env) (s : Store) (userId id : Nat)
    (order : Order) (tl : List Order) (hfault : ∀ k, env.dbFault k = none)
    (hsel : s.selectOrder id userId = order :: tl)
    (hst : order.status = "pending" ∨ order.status = "processing") :
    (cancelOrder env s userId id).1 = ⟨200, .message "Order cancelled successfully"⟩ ∧
    (cancelOrder env s userId id).2.products =
      s.products.map (fun p => { p with stock := p.stock + orderQty s id p.id }) ∧
    (cancelOrder env s userId id).2.orders =
      s.orders.map (fun o => if o.id = id then { o with status := "cancelled" } else o) ∧
    (cancelOrder env s userId id).2.order_items = s.order_items ∧
    (cancelOrder env s userId id).2.payments = s.payments := by
  have h := cancelOrder.transaction_commits env s userId id order tl hfault hsel hst
  unfold cancelOrder
  rw [h]
  exact ⟨rfl, rfl, rfl, rfl, rfl⟩

theorem selectOrder_cancelledStore (s : Store) (id userId : Nat) :
    (cancelledStore s id).selectOrder id userId =
      (s.selectOrder id userId).map (fun o => { o with status := "cancelled" }) := by
  simp only [Store.selectOrder, cancelledStore, List.filter_map]
  have hpred : ((fun o : Order => decide (o.id = id ∧ o.user_id = userId)) ∘
      fun o => if o.id = id then { o with status := "cancelled" } else o) =
      fun o : Order => decide (o.id = id ∧ o.user_id = userId) := by
    funext o
    simp only [Function.comp]
    by_cases ho : o.id = id <;> simp [ho]
  rw [hpred]
  apply List.map_congr_left
  intro o ho
  have hid : o.id = id := by
    have := (List.mem_filter.mp ho).2
    simp only [decide_eq_true_eq] at this
    exact this.1
  rw [if_pos hid]

/-- A success answer of `cancelOrder` comes from a committed transaction. -/
theorem cancelOrder_ok (env : Env) (s : Store) (userId id : Nat)
    (h : (cancelOrder env s userId id).1.status = 200) :
    cancelOrder.transaction env s userId id = .ok (cancelledStore s id) ∧
      cancelOrder env s userId id =
        (⟨200, .message "Order cancelled successfully"⟩, cancelledStore s id) := by
  unfold cancelOrder at h ⊢
  cases htx : cancelOrder.transaction env s userId id with
  | error e => rw [htx] at h; simp at h
  | ok w =>
    obtain ⟨-, -, -, -, rfl⟩ := cancelOrder.transaction_cancelled env s userId id w htx
    exact ⟨rfl, rfl⟩

/-- C7: for an order of the caller whose status is neither pending nor
processing, `cancelOrder` answers 500 with `Order cannot be cancelled` and the
committed store is the store before the call; in particular a `cancelOrder` that
follows a successful `cancelOrder` of the same order by the same caller fails in
this way and restores no stock. -/
theorem cancelOrder_not_cancellable :
    (∀ (env : Env) (s : Store) (userId id : Nat) (order : Order) (tl : List Order),
      env.dbFault 0 = none → env.dbFault 1 = none →
      s.selectOrder id userId = order :: tl →
      order.status ≠ "pending" → order.status ≠ "processing" →
      cancelOrder env s userId id = (⟨500, .error "Order cannot be cancelled"⟩, s)) ∧
    (∀ (env env2 : Env) (s : Store) (userId id : Nat),
      (cancelOrder env s userId id).1.status = 200 →
      env2.dbFault 0 = none → env2.dbFault 1 = none →
      cancelOrder env2 (cancelOrder env s userId id).2 userId id =
        (⟨500, .error "Order cannot be cancelled"⟩, (cancelOrder env s userId id).2)) := by
  have partA : ∀ (env : Env) (s : Store) (userId id : Nat) (order : Order) (tl : List Order),
      env.dbFault 0 = none → env.dbFault 1 = none →
      s.selectOrder id userId = order :: tl →
      order.status ≠ "pending" → order.status ≠ "processing" →
      cancelOrder env s userId id = (⟨500, .error "Order cannot be cancelled"⟩, s) := by
    intro env s userId id order tl h0 h1 hsel hp hq
    unfold cancelOrder cancelOrder.transaction
    simp only [h0, h1, hsel]
    rw [if_pos ⟨hp, hq⟩]
    rfl
  refine ⟨partA, ?_⟩
  intro env env2 s userId id hok h0 h1
  obtain ⟨htx, hres⟩ := cancelOrder_ok env s userId id hok
  obtain ⟨order, tl, hsel, -, -⟩ := cancelOrder.transaction_cancelled env s userId id _ htx
  rw [hres]
  have hsel2 := selectOrder_cancelledStore s id userId
  rw [hsel, List.map_cons] at hsel2
  have hp : ("cancelled" : String) ≠ "pending" := by decide
  have hq : ("cancelled" : String) ≠ "processing" := by decide
  exact partA env2 _ userId id _ _ h0 h1 hsel2 hp hq

theorem createOrder_insufficient_stock_witness :
    createOrder.loop Env.ok [⟨1, 3⟩] demoStore 1 0 [] =
      .ok (demoStoreThreeTaken, 3, 1500, [⟨1, "Laptop", 3, 500, 1500⟩]) ∧
    createOrder Env.ok demoStore demoRequestTwice =
      (⟨500, .error "Insufficient stock for Laptop"⟩, demoStore) :=
  ⟨by with_unfolding_all rfl,
    createOrder_insufficient_stock Env.ok demoStore demoRequestTwice [⟨1, 3⟩] [] ⟨1, 3⟩
      "123 Main Street" demoStoreThreeTaken 3 1500 [⟨1, "Laptop", 3, 500, 1500⟩]
      ⟨1, "Laptop", 500, 2⟩ [] rfl rfl (by decide) rfl (by with_unfolding_all rfl) rfl rfl
      (by decide)⟩

theorem createOrder_product_not_found_witness :
    createOrder.loop Env.ok [⟨1, 1⟩] demoStore 1 0 [] =
      .ok (demoStoreOneTaken, 3, 500, [⟨1, "Laptop", 1, 500, 500⟩]) ∧
    createOrder Env.ok demoStore demoRequestMissing =
      (⟨500, .error "Product 9 not found"⟩, demoStore) :=
  ⟨by with_unfolding_all rfl,
    createOrder_product_not_found Env.ok demoStore demoRequestMissing [⟨1, 1⟩] [] ⟨9, 1⟩
      "123 Main Street" demoStoreOneTaken 3 500 [⟨1, "Laptop", 1, 500, 500⟩]
      rfl rfl (by decide) rfl (by with_unfolding_all rfl) rfl (by decide)⟩

theorem cancelOrder_restores_stock_witness :
    demoStoreOrdered.selectOrder 1 7 = demoStoreOrdered.orders ∧
    (cancelOrder Env.ok demoStoreOrdered 7 1).1 =
      ⟨200, .message "Order cancelled successfully"⟩ ∧
    (cancelOrder Env.ok demoStoreOrdered 7 1).2.products =
      demoStoreOrdered.products.map
        (fun p => { p with stock := p.stock + orderQty demoStoreOrdered 1 p.id }) ∧
    (cancelOrder Env.ok demoStoreOrdered 7 1).2.orders =
      demoStoreOrdered.orders.map
        (fun o => if o.id = 1 then { o with status := "cancelled" } else o) ∧
    (cancelOrder Env.ok demoStoreOrdered 7 1).2.order_items = demoStoreOrdered.order_items ∧
    (cancelOrder Env.ok demoStoreOrdered 7 1).2.payments = demoStoreOrdered.payments :=
  ⟨rfl,
    cancelOrder_restores_stock Env.ok demoStoreOrdered 7 1 _ [] (fun _ => rfl) rfl
      (Or.inl rfl)⟩

theorem cancelOrder_not_cancellable_witness :
    cancelOrder Env.ok demoStoreCancelled 7 1 =
      (⟨500, .error "Order cannot be cancelled"⟩, demoStoreCancelled) ∧
    cancelOrder Env.ok (cancelOrder Env.ok demoStoreOrdered 7 1).2 7 1 =
      (⟨500, .error "Order cannot be cancelled"⟩,
        (cancelOrder Env.ok demoStoreOrdered 7 1).2) :=
  ⟨cancelOrder_not_cancellable.1 Env.ok demoStoreCancelled 7 1 _ [] rfl rfl rfl
      (by decide) (by decide),
    cancelOrder_not_cancellable.2 Env.ok Env.ok demoStoreOrdered 7 1 (by decide) rfl rfl⟩

/-- C11: when no order with the given id is owned by the caller (there is no
such order, or it belongs to another user), `cancelOrder` answers 500 with
`Order not found` and the committed store, with every order status and every
product stock, is the store before the call. -/
theorem cancelOrder_not_found (env : Env) (s : Store) (userId id : Nat)
    (h0 : env.dbFault 0 = none) (h1 : env.dbFault 1 = none)
    (hnone : ∀ o ∈ s.orders, o.id = id → o.user_id ≠ userId) :
    cancelOrder env s userId id = (⟨500, .error "Order not found"⟩, s) := by
  have hsel : s.selectOrder id userId = [] := by
    simp only [Store.selectOrder, List.filter_eq_nil_iff]
    intro o ho
    simp only [decide_eq_true_eq, not_and]
    exact hnone o ho
  unfold cancelOrder cancelOrder.transaction
  simp only [h0, h1, hsel]
  rfl

theorem cancelOrder_not_found_witness :
    (∀ o ∈ demoStoreOrdered.orders, o.id = 1 → o.user_id ≠ 8) ∧
    cancelOrder Env.ok demoStoreOrdered 8 1 =
      (⟨500, .error "Order not found"⟩, demoStoreOrdered) :=
  ⟨by decide, cancelOrder_not_found Env.ok demoStoreOrdered 8 1 rfl rfl (by decide)⟩

/-- C10, at a failing input: the cache client fails on `keys` after the
`COMMIT`; `createOrder` answers 500 with the message of the cache error, and the
committed store holds the new order row, its order item row and the decremented
stock. -/
theorem createOrder_error_after_commit :
    createOrder Env.cacheDown demoStore demoRequest =
      (⟨500, .error "The client is closed"⟩, demoStoreOrdered) ∧
    demoStoreOrdered ≠ demoStore := by
  decide!

/-- C17, at a failing input: a statement of the transaction fails in the
database driver; `createOrder` and `cancelOrder` answer 500 with the message of
the driver error as `error`, and so does `errorHandler` in production mode. -/
theorem order_handlers_leak_store_error :
    createOrder Env.dbDown demoStore demoRequest =
      (⟨500, .error "Connection terminated unexpectedly"⟩, demoStore) ∧
    cancelOrder Env.dbDown demoStoreOrdered 7 1 =
      (⟨500, .error "Connection terminated unexpectedly"⟩, demoStoreOrdered) ∧
    errorHandler false demoDriverError =
      ⟨500, .error "Connection terminated unexpectedly"⟩ := by
  decide

/-! ## Conservation of stock over sequences of order operations -/

theorem runOps_induction (P : Store → Prop) :
    ∀ (ops : List Op) (s0 : Store), P s0 →
      (∀ s op, op ∈ ops → P s → P (op.run s).2) → P (runOps s0 ops) := by
  intro ops
  induction ops with
  | nil => intro s0 h0 _; exact h0
  | cons op ops ih =>
    intro s0 h0 hstep
    unfold runOps
    rw [List.foldl_cons]
    exact ih _ (hstep s0 op (List.mem_cons_self _ _) h0)
      (fun s op' hop hs => hstep s op' (List.mem_cons_of_mem _ hop) hs)

theorem live_of_order (s : Store) (it : OrderItem) (o : Order) (ho : o ∈ s.orders)
    (hid : o.id = it.order_id) (hst : o.status ≠ "cancelled") : s.live it = true := by
  unfold Store.live
  rw [List.any_eq_true]
  exact ⟨o, ho, by simp [hid, hst]⟩

theorem live_cancelledStore_eq (s : Store) (id : Nat) (it : OrderItem)
    (h : it.order_id = id) : (cancelledStore s id).live it = false := by
  unfold Store.live cancelledStore
  rw [List.any_eq_false]
  intro o ho
  simp only [List.mem_map] at ho
  obtain ⟨o0, -, rfl⟩ := ho
  by_cases h0 : o0.id = id
  · simp [h0]
  · simp [h0, h]

theorem live_cancelledStore_ne (s : Store) (id : Nat) (it : OrderItem)
    (h : it.order_id ≠ id) : (cancelledStore s id).live it = s.live it := by
  unfold Store.live cancelledStore
  simp only [List.any_map]
  congr 1
  funext o
  simp only [Function.comp]
  by_cases h0 : o.id = id
  · have : ¬ id = it.order_id := fun e => h e.symm
    simp [h0, this]
  · simp [h0]

theorem sum_filter_split {α : Type} (q : α → Int) (f g h : α → Bool) :
    ∀ l : List α, (∀ a ∈ l, f a = (g a || h a) ∧ (g a && h a) = false) →
      ((l.filter f).map q).sum = ((l.filter g).map q).sum + ((l.filter h).map q).sum := by
  intro l
  induction l with
  | nil => intro _; simp
  | cons a l ih =>
    intro H
    have ha := H a (List.mem_cons_self _ _)
    have ih' := ih (fun b hb => H b (List.mem_cons_of_mem _ hb))
    cases hg : g a <;> cases hh : h a <;> simp [hg, hh] at ha
    · simp only [List.filter_cons, ha, hg, hh]
      simpa using ih'
    · simp only [List.filter_cons, ha, hg, hh]
      simp only [if_true, Bool.false_eq_true, if_false, List.map_cons, List.sum_cons]
      rw [ih']; ring
    · simp only [List.filter_cons, ha, hg, hh]
      simp only [if_true, Bool.false_eq_true, if_false, List.map_cons, List.sum_cons]
      rw [ih']; ring

/-- Cancelling order `id`, one of whose rows is not cancelled, takes the
quantities of its items out of the reserved quantities. -/
theorem reserved_cancelledStore (s : Store) (id pid : Nat) (o : Order) (ho : o ∈ s.orders)
    (hid : o.id = id) (hst : o.status ≠ "cancelled") :
    reserved (cancelledStore s id) pid = reserved s pid - orderQty s id pid := by
  have hitems : (cancelledStore s id).order_items = s.order_items := rfl
  unfold reserved orderQty rowsQty Store.selectItems
  rw [hitems, List.filter_filter, eq_sub_iff_add_eq, eq_comm]
  apply sum_filter_split
  intro it _
  by_cases h1 : it.order_id = id
  · have hl : s.live it = true := live_of_order s it o ho (by rw [hid, h1]) hst
    have hl' : (cancelledStore s id).live it = false := live_cancelledStore_eq s id it h1
    by_cases h2 : it.product_id = pid <;> simp [h1, h2, hl, hl']
  · have hl' : (cancelledStore s id).live it = s.live it :=
      live_cancelledStore_ne s id it h1
    by_cases h2 : it.product_id = pid <;> simp [h1, h2, hl']

theorem lineQty_itemRows (orderId : Nat) (lines : List OrderLine) (pid : Nat) :
    rowsQty (itemRows orderId lines) pid = lineQty lines pid := by
  unfold rowsQty lineQty itemRows
  induction lines with
  | nil => rfl
  | cons l lines ih =>
    by_cases h : l.product_id = pid
    · simp only [List.map_cons, List.filter_cons, h, decide_True, if_true, List.sum_cons]
      rw [ih]
    · simp only [List.map_cons, List.filter_cons, h, decide_False]
      exact ih

/-- Committing a new order with a fresh id adds the quantities of its lines to
the reserved quantities. -/
theorem reserved_created (s s' : Store) (order : Order) (lines : List OrderLine)
    (pid : Nat) (horders : s'.orders = s.orders ++ [order])
    (hitems : s'.order_items = s.order_items ++ itemRows order.id lines)
    (hid : order.id = s.next_order_id) (hst : order.status ≠ "cancelled")
    (hfresh : s.Fresh) :
    reserved s' pid = reserved s pid + lineQty lines pid := by
  unfold reserved
  rw [hitems, List.filter_append, List.map_append, List.sum_append]
  congr 1
  · congr 2
    apply List.filter_congr
    intro it hit
    have hlt := hfresh it hit
    have hne : ¬ order.id = it.order_id := by rw [hid]; omega
    simp only [Store.live, horders, List.any_append]
    simp [hne]
  · rw [← lineQty_itemRows order.id lines pid]
    unfold rowsQty
    congr 2
    apply List.filter_congr
    intro it hit
    have hoid : it.order_id = order.id := by
      simp only [itemRows, List.mem_map] at hit
      obtain ⟨l, -, rfl⟩ := hit
      rfl
    have : s'.live it = true :=
      live_of_order s' it order (by rw [horders]; simp) hoid.symm hst
    simp [this]

end DhakaCart
namespace DhakaCart

theorem conserved_refl (s0 : Store) (h : s0.Fresh) : Conserved s0 s0 :=
  ⟨h, List.forall₂_same.mpr (fun _ _ => ⟨rfl, rfl⟩)⟩

theorem conserved_createOrder (s0 s : Store) (env : Env) (req : OrderRequest)
    (h : Conserved s0 s) : Conserved s0 (createOrder env s req).2 := by
  rcases createOrder_store env s req with hs | ⟨items, addr, w, order, lines, -, -, htx, hs⟩
  · rw [hs]; exact h
  · rw [hs]
    obtain ⟨hord, -, hqty, -, hw⟩ :=
      createOrder.transaction_ok env s req.userId items addr req.payment_method w order
        lines htx
    have hid : order.id = s.next_order_id := by rw [hord]; rfl
    have hpc : ("pending" : String) ≠ "cancelled" := by decide
    have hst : order.status ≠ "cancelled" := by rw [hord]; exact hpc
    have hres : ∀ pid, reserved w pid = reserved s pid + cartQty items pid := by
      intro pid
      rw [← hqty pid]
      exact reserved_created s w order lines pid (by rw [hw]) (by rw [hw]) hid hst h.1
    refine ⟨?_, ?_⟩
    · intro it hit
      rw [hw] at hit ⊢
      simp only [List.mem_append] at hit
      rcases hit with hit | hit
      · have := h.1 it hit
        simp only
        omega
      · simp only [itemRows, List.mem_map] at hit
        obtain ⟨l, -, rfl⟩ := hit
        simp only
        omega
    · have hprod : w.products =
          s.products.map (fun p => { p with stock := p.stock - cartQty items p.id }) := by
        rw [hw]
      rw [hprod, List.forall₂_map_right_iff]
      refine h.2.imp ?_
      rintro p0 p ⟨hpid, hsum⟩
      refine ⟨hpid, ?_⟩
      simp only
      rw [hres p0.id, hpid, ← hsum]
      ring

theorem conserved_cancelOrder (s0 s : Store) (env : Env) (userId id : Nat)
    (h : Conserved s0 s) : Conserved s0 (cancelOrder env s userId id).2 := by
  rcases cancelOrder_store env s userId id with hs | ⟨htx, hs⟩
  · rw [hs]; exact h
  · rw [hs]
    obtain ⟨order, tl, hsel, hst, -⟩ := cancelOrder.transaction_cancelled env s userId id _ htx
    have hmem : order ∈ s.selectOrder id userId := by rw [hsel]; exact List.mem_cons_self _ _
    have hmem' := List.mem_filter.mp hmem
    have hoid : order.id = id := by
      have := hmem'.2
      simp only [decide_eq_true_eq] at this
      exact this.1
    have hnc : order.status ≠ "cancelled" := by
      rcases hst with e | e <;> rw [e] <;> decide
    have hres : ∀ pid, reserved (cancelledStore s id) pid =
        reserved s pid - orderQty s id pid :=
      fun pid => reserved_cancelledStore s id pid order hmem'.1 hoid hnc
    refine ⟨h.1, ?_⟩
    have hprod : (cancelledStore s id).products =
        s.products.map (fun p => { p with stock := p.stock + orderQty s id p.id }) := rfl
    rw [hprod, List.forall₂_map_right_iff]
    refine h.2.imp ?_
    rintro p0 p ⟨hpid, hsum⟩
    refine ⟨hpid, ?_⟩
    simp only
    rw [hres p0.id, hpid, ← hsum]
    ring

theorem reserved_eq_zero (s : Store) (pid : Nat) (h : s.order_items = []) :
    reserved s pid = 0 := by
  unfold reserved
  rw [h]
  rfl

/-- C2: after any sequence of `createOrder` and `cancelOrder` calls, the product
rows are those of the initial store, and the stock of every product is its
initial stock minus the growth of the sum of the quantities of the order items
that reference it and belong to an order that is not cancelled; from an initial
store without order items, the stock is the initial stock minus that sum. -/
theorem stock_conservation (s0 : Store) (ops : List Op) (hfresh : s0.Fresh)
    (hops : ∀ op ∈ ops, op.isOrderOp = true) :
    List.Forall₂
      (fun p0 p => p.id = p0.id ∧
        p.stock = p0.stock - (reserved (runOps s0 ops) p0.id - reserved s0 p0.id))
      s0.products (runOps s0 ops).products ∧
    (s0.order_items = [] →
      List.Forall₂
        (fun p0 p => p.id = p0.id ∧ p.stock = p0.stock - reserved (runOps s0 ops) p.id)
        s0.products (runOps s0 ops).products) := by
  have hinv : Conserved s0 (runOps s0 ops) := by
    apply runOps_induction (Conserved s0) ops s0 (conserved_refl s0 hfresh)
    intro s op hop hs
    have hop' := hops op hop
    cases op with
    | createOrder env req => exact conserved_createOrder s0 s env req hs
    | cancelOrder env userId id => exact conserved_cancelOrder s0 s env userId id hs
    | processBkashPayment _ _ _ _ _ => simp [Op.isOrderOp] at hop'
    | processCardPayment _ _ _ _ _ _ _ _ => simp [Op.isOrderOp] at hop'
    | processCOD _ _ _ => simp [Op.isOrderOp] at hop'
    | refundPayment _ _ _ => simp [Op.isOrderOp] at hop'
    | updateOrderStatus _ _ _ => simp [Op.isOrderOp] at hop'
  refine ⟨hinv.2.imp ?_, fun hempty => hinv.2.imp ?_⟩
  · rintro p0 p ⟨hpid, hsum⟩
    exact ⟨hpid, by linarith⟩
  · rintro p0 p ⟨hpid, hsum⟩
    refine ⟨hpid, ?_⟩
    rw [reserved_eq_zero s0 p0.id hempty] at hsum
    rw [hpid]
    linarith

theorem stock_conservation_witness :
    demoStore.Fresh ∧ (∀ op ∈ demoOps, op.isOrderOp = true) ∧
    List.Forall₂
      (fun p0 p => p.id = p0.id ∧
        p.stock = p0.stock - (reserved (runOps demoStore demoOps) p0.id -
          reserved demoStore p0.id))
      demoStore.products (runOps demoStore demoOps).products ∧
    (demoStore.order_items = [] →
      List.Forall₂
        (fun p0 p => p.id = p0.id ∧
          p.stock = p0.stock - reserved (runOps demoStore demoOps) p.id)
        demoStore.products (runOps demoStore demoOps).products) :=
  ⟨fun _ hit => (nomatch hit), by decide,
    stock_conservation demoStore demoOps (fun _ hit => (nomatch hit)) (by decide)⟩

/-! ## validateOrder on the body of a typed request -/

theorem toJs_get_product_id (c : CartItem) :
    c.toJs.get "product_id" = some (.num c.product_id) := rfl

theorem toJs_get_quantity (c : CartItem) :
    c.toJs.get "quantity" = some (.num c.quantity) := rfl

theorem body_get_items (req : OrderRequest) :
    req.body.get "items" = some (match req.items with
      | none => .undefined
      | some items => .arr (items.map CartItem.toJs)) := rfl

theorem body_get_shipping_address (req : OrderRequest) :
    req.body.get "shipping_address" = some (match req.shipping_address with
      | none => .undefined
      | some a => .str a) := rfl

/-- On the lines of a typed cart the callback never throws and pushes the errors
of `cartErrors`. -/
theorem validateOrder.forEach_typed (engine : JsEngine) :
    ∀ (items : List CartItem) (index : Nat) (errors : List String),
      validateOrder.forEach engine (items.map CartItem.toJs) index errors =
        some (errors ++ cartErrors index items) := by
  intro items
  induction items with
  | nil => intro index errors; simp [validateOrder.forEach, cartErrors]
  | cons c items ih =>
    intro index errors
    simp only [List.map_cons, validateOrder.forEach, toJs_get_product_id, toJs_get_quantity,
      JsVal.lt, JsVal.truthy]
    rw [ih]
    simp only [cartErrors, lineErrors]
    by_cases h1 : c.product_id = 0 <;> by_cases h2 : c.quantity = 0 <;>
      by_cases h3 : c.quantity < 1 <;> simp [h1, h2, h3]

theorem lineErrors_eq_nil (index : Nat) (c : CartItem) :
    lineErrors index c = [] ↔ c.product_id ≠ 0 ∧ 1 ≤ c.quantity := by
  unfold lineErrors
  by_cases h1 : c.product_id = 0 <;> by_cases h2 : c.quantity = 0 <;>
    by_cases h3 : c.quantity < 1 <;> simp [h1, h2, h3]
  all_goals omega

theorem cartErrors_eq_nil : ∀ (items : List CartItem) (index : Nat),
    cartErrors index items = [] ↔ ∀ c ∈ items, c.product_id ≠ 0 ∧ 1 ≤ c.quantity := by
  intro items
  induction items with
  | nil => intro index; simp [cartErrors]
  | cons c items ih =>
    intro index
    simp only [cartErrors, List.append_eq_nil, lineErrors_eq_nil, ih, List.mem_cons,
      forall_eq_or_imp]

/-- On the body of a typed request `validateOrder` never throws: it answers 400
with the errors of `requestErrors` when there are any, and calls `next()`
otherwise. -/
theorem validateOrder_typed (engine : JsEngine) (req : OrderRequest) :
    validateOrder engine req.body =
      if requestErrors req = [] then Validation.next
      else Validation.rejected (requestErrors req) := by
  have hfin : ∀ errs : List String,
      (if errs.length > 0 then Validation.rejected errs else Validation.next) =
        if errs = [] then Validation.next else Validation.rejected errs := by
    intro errs
    cases errs <;> simp
  unfold validateOrder
  rw [body_get_items, body_get_shipping_address]
  rcases req with ⟨userId, items, address, pm⟩
  cases items with
  | none =>
    cases address with
    | none => simp [JsVal.truthy, requestErrors]
    | some a =>
      by_cases ha : a = ""
      · simp [JsVal.truthy, requestErrors, ha]
      · by_cases hl : jsLength (jsTrim a) < 10
        · simp [JsVal.truthy, requestErrors, ha, hl]
        · simp [JsVal.truthy, requestErrors, ha, hl]
  | some items =>
    cases items with
    | nil =>
      cases address with
      | none => simp [JsVal.truthy, requestErrors, validateOrder.forEach, cartErrors]
      | some a =>
        by_cases ha : a = ""
        · simp [JsVal.truthy, requestErrors, validateOrder.forEach, cartErrors, ha]
        · by_cases hl : jsLength (jsTrim a) < 10
          · simp [JsVal.truthy, requestErrors, validateOrder.forEach, cartErrors, ha, hl]
          · simp [JsVal.truthy, requestErrors, validateOrder.forEach, cartErrors, ha, hl]
    | cons c cs =>
      have hfe := validateOrder.forEach_typed engine (c :: cs) 0 []
      simp only [List.map_cons] at hfe
      simp only [List.map_cons, JsVal.truthy, if_true, hfe, List.nil_append]
      cases address with
      | none => simp [JsVal.truthy, requestErrors]
      | some a =>
        by_cases ha : a = ""
        · simp [JsVal.truthy, requestErrors, ha]
        · by_cases hl : jsLength (jsTrim a) < 10
          · simp [JsVal.truthy, requestErrors, ha, hl]
          · simp only [JsVal.truthy, requestErrors, ha, hl, decide_not, decide_False,
              Bool.not_false, Bool.not_true, Bool.false_eq_true, if_false, or_self,
              List.nil_append, List.append_nil]
            exact hfin _

/-- On the body of a typed request, `validateOrder` calls `next()` exactly when
the cart is a non-empty array, every line has a product id and a quantity of at
least 1, and the trimmed shipping address has at least 10 characters. -/
theorem validateOrder_next_iff (engine : JsEngine) (req : OrderRequest) :
    validateOrder engine req.body = Validation.next ↔
      (∃ items, req.items = some items ∧ items ≠ [] ∧
        ∀ c ∈ items, c.product_id ≠ 0 ∧ 1 ≤ c.quantity) ∧
      (∃ a, req.shipping_address = some a ∧ 10 ≤ jsLength (jsTrim a)) := by
  rw [validateOrder_typed]
  have hne : ∀ a : String, a = "" → jsLength (jsTrim a) < 10 := by
    intro a ha; subst ha; decide
  have hiff : requestErrors req = [] ↔
      (∃ items, req.items = some items ∧ items ≠ [] ∧
        ∀ c ∈ items, c.product_id ≠ 0 ∧ 1 ≤ c.quantity) ∧
      (∃ a, req.shipping_address = some a ∧ 10 ≤ jsLength (jsTrim a)) := by
    rcases req with ⟨userId, items, address, pm⟩
    unfold requestErrors
    cases items with
    | none => simp
    | some items =>
      cases items with
      | nil => simp
      | cons c cs =>
        cases address with
        | none => simp
        | some a =>
          simp only [List.nil_append, List.append_eq_nil, cartErrors_eq_nil,
            Option.some.injEq, exists_eq_left', ne_eq, not_false_eq_true, true_and,
            ite_eq_right_iff, not_or, not_lt, reduceCtorEq, imp_false]
          constructor
          · rintro ⟨h1, h2⟩
            exact ⟨h1, h2.2⟩
          · rintro ⟨h1, h2⟩
            refine ⟨h1, fun ha => ?_, h2⟩
            have := hne a ha
            omega
  constructor
  · intro h
    by_cases he : requestErrors req = []
    · exact hiff.mp he
    · rw [if_neg he] at h; exact absurd h (by simp)
  · intro h
    rw [if_pos (hiff.mpr h)]

/-! ## Stock never negative -/

theorem productKey_unique (s : Store) (hkey : s.ProductKey) (a b : Product)
    (ha : a ∈ s.products) (hb : b ∈ s.products) (hid : a.id = b.id) : a = b :=
  List.inj_on_of_nodup_map hkey ha hb hid

theorem productKey_decStock (w : Store) (q : Int) (id : Nat) (h : w.ProductKey) :
    (w.decStock q id).ProductKey := by
  unfold Store.ProductKey Store.decStock at *
  simp only [List.map_map]
  have : ((fun p : Product => p.id) ∘
      fun p => if p.id = id then { p with stock := p.stock - q } else p) =
      fun p : Product => p.id := by
    funext p
    simp only [Function.comp]
    by_cases hp : p.id = id <;> simp [hp]
  rw [this]
  exact h

/-- The item loop of `createOrder` keeps every stock non-negative when the
product ids are distinct. -/
theorem createOrder.loop_nonneg (env : Env) :
    ∀ (items : List CartItem) (w : Store) (n : Nat) (total : ℚ) (acc : List OrderLine)
      (w' : Store) (n' : Nat) (total' : ℚ) (acc' : List OrderLine),
      createOrder.loop env items w n total acc = .ok (w', n', total', acc') →
      w.ProductKey → w.StockNonneg → w'.StockNonneg := by
  intro items
  induction items with
  | nil =>
    intro w n total acc w' n' total' acc' h _ hnn
    simp only [createOrder.loop, Except.ok.injEq, Prod.mk.injEq] at h
    rw [← h.1]; exact hnn
  | cons item rest ih =>
    intro w n total acc w' n' total' acc' h hkey hnn
    unfold createOrder.loop at h
    split at h
    · exact absurd h (by simp)
    · split at h
      · exact absurd h (by simp)
      · rename_i product tl hsel
        split at h
        · exact absurd h (by simp)
        · rename_i hstock
          split at h
          · exact absurd h (by simp)
          · have hmem : product ∈ w.products := by
              have : product ∈ w.selectProduct item.product_id := by
                rw [hsel]; exact List.mem_cons_self _ _
              exact (List.mem_filter.mp this).1
            refine ih _ _ _ _ _ _ _ _ h (productKey_decStock w _ _ hkey) ?_
            intro p hp
            simp only [Store.decStock, List.mem_map] at hp
            obtain ⟨p0, hp0, rfl⟩ := hp
            by_cases hid : p0.id = product.id
            · have : p0 = product := productKey_unique w hkey p0 product hp0 hmem hid
              subst this
              rw [if_pos rfl]
              simp only
              omega
            · rw [if_neg hid]
              exact hnn p0 hp0

theorem rowsQty_nonneg (rows : List OrderItem) (pid : Nat)
    (h : ∀ it ∈ rows, 0 ≤ it.quantity) : 0 ≤ rowsQty rows pid := by
  unfold rowsQty
  apply List.sum_nonneg
  intro q hq
  simp only [List.mem_map, List.mem_filter] at hq
  obtain ⟨it, ⟨hit, -⟩, rfl⟩ := hq
  exact h it hit

theorem sound_cancelOrder (s : Store) (env : Env) (userId id : Nat) (h : s.Sound) :
    (cancelOrder env s userId id).2.Sound := by
  rcases cancelOrder_store env s userId id with hs | ⟨-, hs⟩
  · rw [hs]; exact h
  · rw [hs]
    obtain ⟨hnn, hkey, hq⟩ := h
    refine ⟨?_, ?_, hq⟩
    · intro p hp
      simp only [cancelledStore, List.mem_map] at hp
      obtain ⟨p0, hp0, rfl⟩ := hp
      have h1 := hnn p0 hp0
      have h2 : 0 ≤ orderQty s id p0.id :=
        rowsQty_nonneg _ _ (fun it hit => hq it (List.mem_filter.mp hit).1)
      simp only
      omega
    · unfold Store.ProductKey cancelledStore
      simp only [List.map_map]
      exact hkey

theorem sound_createOrder (engine : JsEngine) (s : Store) (env : Env) (req : OrderRequest)
    (hval : validateOrder engine req.body = Validation.next) (h : s.Sound) :
    (createOrder env s req).2.Sound := by
  rcases createOrder_store env s req with hs | ⟨items, addr, w, order, lines, hitems, -, htx, hs⟩
  · rw [hs]; exact h
  · rw [hs]
    obtain ⟨hnn, hkey, hq⟩ := h
    obtain ⟨⟨items', hitems', -, hpos⟩, -⟩ := (validateOrder_next_iff engine req).mp hval
    rw [hitems] at hitems'
    cases hitems'
    obtain ⟨-, -, -, hfor, hw⟩ :=
      createOrder.transaction_ok env s req.userId items addr req.payment_method w order
        lines htx
    have hloop : ∃ w0 n0 t0 l0, createOrder.loop env items s 1 0 [] = .ok (w0, n0, t0, l0) ∧
        w0.products = w.products := by
      unfold createOrder.transaction at htx
      split at htx
      · exact absurd htx (by simp)
      · split at htx
        · exact absurd htx (by simp)
        · rename_i w0 n0 t0 l0 hl
          refine ⟨w0, n0, t0, l0, hl, ?_⟩
          obtain ⟨-, -, -, -, -, -, -, hw0⟩ := createOrder.loop_ok env _ _ _ _ _ _ _ _ _ hl
          rw [hw0, hw]
    obtain ⟨w0, n0, t0, l0, hl, hprod⟩ := hloop
    have hnn0 := createOrder.loop_nonneg env _ _ _ _ _ _ _ _ _ hl hkey hnn
    refine ⟨?_, ?_, ?_⟩
    · intro p hp
      rw [← hprod] at hp
      exact hnn0 p hp
    · unfold Store.ProductKey
      rw [hw]
      simp only [List.map_map]
      exact hkey
    · intro it hit
      rw [hw] at hit
      simp only [List.mem_append] at hit
      rcases hit with hit | hit
      · exact hq it hit
      · simp only [itemRows, List.mem_map] at hit
        obtain ⟨l, hl, rfl⟩ := hit
        simp only
        obtain ⟨c, hc, hcl⟩ : ∃ c ∈ items, lineFor s c l := by
          have := List.forall₂_iff_zip.mp hfor
          obtain ⟨i, hi, rfl⟩ := List.mem_iff_getElem.mp hl
          have hi' : i < items.length := by rw [this.1]; exact hi
          exact ⟨items[i], List.getElem_mem _, this.2 (List.getElem_zip.symm ▸
            List.getElem_mem (by simp [List.length_zip, hi, hi']))⟩
        have := (hpos c hc).2
        rw [hcl.2.1]
        omega

/-- C3: starting from a store in which every product has `stock >= 0` (product
ids distinct, no order item with a negative quantity), after any sequence of
`createOrder` calls on bodies that `validateOrder` passed on, carts listing a
product on several lines included, and `cancelOrder` calls, every product has
`stock >= 0`. -/
theorem stock_never_negative (engine : JsEngine) (s0 : Store) (ops : List Op)
    (hstock : s0.StockNonneg) (hkey : s0.ProductKey) (hqty : s0.QtyNonneg)
    (hops : ∀ op ∈ ops, op.validated engine) :
    (runOps s0 ops).StockNonneg := by
  have hinv : (runOps s0 ops).Sound := by
    apply runOps_induction Store.Sound ops s0 ⟨hstock, hkey, hqty⟩
    intro s op hop hs
    have hop' := hops op hop
    cases op with
    | createOrder env req => exact sound_createOrder engine s env req hop' hs
    | cancelOrder env userId id => exact sound_cancelOrder s env userId id hs
    | processBkashPayment _ _ _ _ _ => exact absurd hop' (by simp [Op.validated])
    | processCardPayment _ _ _ _ _ _ _ _ => exact absurd hop' (by simp [Op.validated])
    | processCOD _ _ _ => exact absurd hop' (by simp [Op.validated])
    | refundPayment _ _ _ => exact absurd hop' (by simp [Op.validated])
    | updateOrderStatus _ _ _ => exact absurd hop' (by simp [Op.validated])
  exact hinv.1

theorem demoOps_validated : ∀ op ∈ demoOps, op.validated demoEngine := by
  intro op hop
  simp only [demoOps, List.mem_cons, List.mem_singleton, List.not_mem_nil, or_false] at hop
  have hv : validateOrder demoEngine demoRequest.body = Validation.next := by decide
  rcases hop with rfl | rfl | rfl
  · exact hv
  · exact True.intro
  · exact hv

theorem stock_never_negative_witness :
    demoStore.StockNonneg ∧ demoStore.ProductKey ∧ demoStore.QtyNonneg ∧
      (∀ op ∈ demoOps, op.validated demoEngine) ∧
      (runOps demoStore demoOps).StockNonneg :=
  have h1 : demoStore.StockNonneg := by unfold Store.StockNonneg; decide
  have h2 : demoStore.ProductKey := by unfold Store.ProductKey; decide
  have h3 : demoStore.QtyNonneg := fun _ hit => (nomatch hit)
  ⟨h1, h2, h3, demoOps_validated,
    stock_never_negative demoEngine demoStore demoOps h1 h2 h3 demoOps_validated⟩

/-! ## Status changes outside cancelOrder -/

/-- C8, at a failing input: an order for two laptops (stock 5) is placed,
cancelled, put back to `processing` by `processCOD` and cancelled again: its
quantity is restored twice and the stock ends at 7; and an order that
`refundPayment` sets to `cancelled` keeps its stock taken (3). -/
theorem stock_restored_twice :
    (runOps demoStore demoOpsCancelTwice).products.map (fun p => p.stock) = [7, 1] ∧
    (runOps demoStore demoOpsCancelTwice).orders.map (fun o => o.status) = ["cancelled"] ∧
    (runOps demoStore demoOpsRefund).products.map (fun p => p.stock) = [3, 1] ∧
    (runOps demoStore demoOpsRefund).orders.map (fun o => o.status) = ["cancelled"] := by
  decide

/-- C9, at a failing input: on an order whose status is `delivered`, both
`updateOrderStatus` with `cancelled` and `refundPayment` succeed and set the
status to `cancelled`. -/
theorem cancelled_from_delivered :
    (runOps demoStore demoOpsDelivered).orders.map (fun o => o.status) = ["delivered"] ∧
    (updateOrderStatus Env.ok (runOps demoStore demoOpsDelivered) 1 "cancelled").1.status
      = 200 ∧
    (updateOrderStatus Env.ok (runOps demoStore demoOpsDelivered) 1 "cancelled").2.orders.map
      (fun o => o.status) = ["cancelled"] ∧
    (refundPayment Env.ok (runOps demoStore demoOpsDelivered) 1 "customer request").1.status
      = 200 ∧
    (refundPayment Env.ok (runOps demoStore demoOpsDelivered) 1 "customer request").2.orders.map
      (fun o => o.status) = ["cancelled"] := by
  decide

/-- C14, at a failing input: on a body whose cart holds `null`, or whose `items`
is an object, `validateOrder` throws instead of answering 400, whatever the
engine. -/
theorem validateOrder_throws (engine : JsEngine) :
    validateOrder engine demoBodyNullItem = Validation.throws ∧
    validateOrder engine demoBodyObjectItems = Validation.throws := by
  constructor <;> rfl

/-- C20, at a failing input: `validateProduct` passes a body that supplies the
empty string as name and `true` as price, whatever the engine. -/
theorem validateProduct_passes_empty_name (engine : JsEngine) :
    validateProduct engine demoBodyEmptyName = Validation.next := by
  rfl

/-! ## Operations outside the order controller -/

theorem recordPayment_products (env : Env) (s : Store) (order_id : Nat) (amount : ℚ)
    (method transactionId : String) (card_last4 : Option String) :
    (recordPayment env s order_id amount method transactionId card_last4).2.products =
      s.products := by
  unfold recordPayment
  split
  · rfl
  · simp only [Store.insertPayment]
    split <;> rfl

/-- The payment operations, the refund and the admin status update leave the
`products` table as it is. -/
theorem run_products_of_not_orderOp (op : Op) (s : Store) (hop : op.isOrderOp = false) :
    (op.run s).2.products = s.products := by
  cases op with
  | createOrder env req => simp [Op.isOrderOp] at hop
  | cancelOrder env userId id => simp [Op.isOrderOp] at hop
  | processBkashPayment env userId order_id amount phone =>
    simp only [Op.run, processBkashPayment]
    split
    · rfl
    · split
      · rfl
      · split
        · rfl
        · split
          · rfl
          · split
            · rfl
            · exact recordPayment_products _ _ _ _ _ _ _
  | processCardPayment env userId order_id amount card_number card_holder expiry cvv =>
    simp only [Op.run, processCardPayment]
    split
    · rfl
    · split
      · rfl
      · split
        · rfl
        · split
          · rfl
          · split
            · rfl
            · split
              · rfl
              · split
                · rfl
                · exact recordPayment_products _ _ _ _ _ _ _
  | processCOD env userId order_id =>
    simp only [Op.run, processCOD]
    split
    · rfl
    · split
      · rfl
      · split
        · rfl
        · simp only [Store.insertPayment]
          split <;> rfl
  | refundPayment env payment_id reason =>
    simp only [Op.run, refundPayment]
    split
    · rfl
    · split
      · rfl
      · split
        · rfl
        · split
          · rfl
          · split <;> rfl
  | updateOrderStatus env id status =>
    simp only [Op.run, updateOrderStatus]
    split
    · rfl
    · split
      · rfl
      · split <;> rfl

/-- C13, counterexample: `updateProduct` with a stock in its body sets the stock
of the product: the laptop of `demoStore` goes from 5 to 50. -/
theorem updateProduct_sets_stock :
    (updateProduct Env.ok demoStore 1 none none (some 50)).1.status = 200 ∧
    (updateProduct Env.ok demoStore 1 none none (some 50)).2.products.map
      (fun p => p.stock) = [50, 1] ∧
    demoStore.products.map (fun p => p.stock) = [5, 1] := by
  decide

/-- C13, amended: the payment operations, `refundPayment` and `updateOrderStatus`
leave every product row, hence every stock, unchanged; `updateProduct` changes
no stock when its body supplies none, and otherwise sets the stock of the rows
with the given id to the supplied value when its statement runs. -/
theorem stock_outside_order_controller (op : Op) (s : Store)
    (hop : op.isOrderOp = false) :
    (op.run s).2.products = s.products ∧
    (∀ env id name price,
      (updateProduct env s id name price none).2.products.map (fun p => (p.id, p.stock)) =
        s.products.map (fun p => (p.id, p.stock))) ∧
    (∀ env id name price stock, env.dbFault 0 = none →
      (updateProduct env s id name price (some stock)).2.products.map
          (fun p => (p.id, p.stock)) =
        s.products.map (fun p => (p.id, if p.id = id then stock else p.stock))) := by
  refine ⟨run_products_of_not_orderOp op s hop, ?_, ?_⟩
  · intro env id name price
    unfold updateProduct
    split
    · rfl
    · have : ∀ l : List Product,
          (l.map (fun p => if p.id = id then
              { p with name := name.getD p.name, price := price.getD p.price,
                       stock := (none : Option Int).getD p.stock }
            else p)).map (fun p => (p.id, p.stock)) = l.map (fun p => (p.id, p.stock)) := by
        intro l
        rw [List.map_map]
        apply List.map_congr_left
        intro p _
        simp only [Function.comp]
        by_cases hp : p.id = id <;> simp [hp]
      simp only
      split
      · exact this _
      · split <;> exact this _
  · intro env id name price stock hfault
    unfold updateProduct
    rw [hfault]
    have : ∀ l : List Product,
        (l.map (fun p => if p.id = id then
            { p with name := name.getD p.name, price := price.getD p.price,
                     stock := (some stock).getD p.stock }
          else p)).map (fun p => (p.id, p.stock)) =
        l.map (fun p => (p.id, if p.id = id then stock else p.stock)) := by
      intro l
      rw [List.map_map]
      apply List.map_congr_left
      intro p _
      simp only [Function.comp]
      by_cases hp : p.id = id <;> simp [hp]
    simp only
    split
    · exact this _
    · split <;> exact this _

theorem stock_outside_order_controller_witness :
    (Op.processCOD Env.ok 7 1).isOrderOp = false ∧
    ((Op.processCOD Env.ok 7 1).run demoStoreOrdered).2.products = demoStoreOrdered.products ∧
    (∀ env id name price,
      (updateProduct env demoStoreOrdered id name price none).2.products.map
          (fun p => (p.id, p.stock)) =
        demoStoreOrdered.products.map (fun p => (p.id, p.stock))) ∧
    (∀ env id name price stock, env.dbFault 0 = none →
      (updateProduct env demoStoreOrdered id name price (some stock)).2.products.map
          (fun p => (p.id, p.stock)) =
        demoStoreOrdered.products.map
          (fun p => (p.id, if p.id = id then stock else p.stock))) :=
  ⟨rfl, stock_outside_order_controller (Op.processCOD Env.ok 7 1) demoStoreOrdered rfl⟩

/-! ## Order statuses -/

theorem statusValid_setStatus (s : Store) (status : String) (id : Nat)
    (h : s.StatusValid) (hv : status ∈ validStatuses) : (s.setStatus status id).StatusValid := by
  intro o ho
  simp only [Store.setStatus, List.mem_map] at ho
  obtain ⟨o0, ho0, rfl⟩ := ho
  by_cases hid : o0.id = id
  · rw [if_pos hid]; exact hv
  · rw [if_neg hid]; exact h o0 ho0

theorem statusValid_setPaymentAndStatus (s : Store) (payment_status status : String)
    (id : Nat) (h : s.StatusValid) (hv : status ∈ validStatuses) :
    (s.setPaymentAndStatus payment_status status id).StatusValid := by
  intro o ho
  simp only [Store.setPaymentAndStatus, List.mem_map] at ho
  obtain ⟨o0, ho0, rfl⟩ := ho
  by_cases hid : o0.id = id
  · rw [if_pos hid]; exact hv
  · rw [if_neg hid]; exact h o0 ho0

theorem statusValid_recordPayment (env : Env) (s : Store) (order_id : Nat) (amount : ℚ)
    (method transactionId : String) (card_last4 : Option String) (h : s.StatusValid) :
    (recordPayment env s order_id amount method transactionId card_last4).2.StatusValid := by
  unfold recordPayment
  split
  · exact h
  · simp only [Store.insertPayment]
    split
    · exact h
    · exact statusValid_setPaymentAndStatus _ _ _ _ h (by decide)

/-- Every operation keeps the statuses of the orders among the five. -/
theorem statusValid_run (op : Op) (s : Store) (h : s.StatusValid) :
    (op.run s).2.StatusValid := by
  cases op with
  | createOrder env req =>
    simp only [Op.run]
    rcases createOrder_store env s req with hs | ⟨items, addr, w, order, lines, -, -, htx, hs⟩
    · rw [hs]; exact h
    · rw [hs]
      obtain ⟨hord, -, -, -, hw⟩ :=
        createOrder.transaction_ok env s req.userId items addr req.payment_method w order
          lines htx
      intro o ho
      rw [hw] at ho
      simp only [List.mem_append, List.mem_singleton] at ho
      rcases ho with ho | rfl
      · exact h o ho
      · rw [hord]; simp only [newOrder]; decide
  | cancelOrder env userId id =>
    simp only [Op.run]
    rcases cancelOrder_store env s userId id with hs | ⟨-, hs⟩
    · rw [hs]; exact h
    · rw [hs]
      exact statusValid_setStatus s "cancelled" id h (by decide)
  | processBkashPayment env userId order_id amount phone =>
    simp only [Op.run, processBkashPayment]
    split
    · exact h
    · split
      · exact h
      · split
        · exact h
        · split
          · exact h
          · split
            · exact h
            · exact statusValid_recordPayment _ _ _ _ _ _ _ h
  | processCardPayment env userId order_id amount card_number card_holder expiry cvv =>
    simp only [Op.run, processCardPayment]
    split
    · exact h
    · split
      · exact h
      · split
        · exact h
        · split
          · exact h
          · split
            · exact h
            · split
              · exact h
              · split
                · exact h
                · exact statusValid_recordPayment _ _ _ _ _ _ _ h
  | processCOD env userId order_id =>
    simp only [Op.run, processCOD]
    split
    · exact h
    · split
      · exact h
      · split
        · exact h
        · simp only [Store.insertPayment]
          split
          · exact h
          · exact statusValid_setPaymentAndStatus _ _ _ _ h (by decide)
  | refundPayment env payment_id reason =>
    simp only [Op.run, refundPayment]
    split
    · exact h
    · split
      · exact h
      · split
        · exact h
        · split
          · exact h
          · split
            · exact h
            · exact statusValid_setPaymentAndStatus (s.refund reason payment_id) _ _ _ h
                (by decide)
  | updateOrderStatus env id status =>
    simp only [Op.run, updateOrderStatus]
    split
    · exact h
    · rename_i hv
      have hv' : status ∈ validStatuses := by
        by_contra hc; exact hv hc
      split
      · exact h
      · split
        · exact statusValid_setStatus s status id h hv'
        · exact statusValid_setStatus s status id h hv'

/-- C16: from a store in which every order has one of the five statuses, every
store reached through `createOrder`, `cancelOrder`, the three payment
operations, `refundPayment` and `updateOrderStatus` has every order in one of
the five statuses; `updateOrderStatus` with any other status answers 400
`Invalid status` and leaves the store as it is. -/
theorem order_status_valid (s0 : Store) (ops : List Op) (h0 : s0.StatusValid) :
    (runOps s0 ops).StatusValid ∧
    ∀ (env : Env) (s : Store) (id : Nat) (status : String), status ∉ validStatuses →
      updateOrderStatus env s id status = (⟨400, .error "Invalid status"⟩, s) := by
  refine ⟨runOps_induction Store.StatusValid ops s0 h0
    (fun s op _ hs => statusValid_run op s hs), ?_⟩
  intro env s id status hv
  unfold updateOrderStatus
  rw [if_pos hv]

theorem order_status_valid_witness :
    demoStore.StatusValid ∧
    (runOps demoStore demoOpsDelivered).StatusValid ∧
    ∀ (env : Env) (s : Store) (id : Nat) (status : String), status ∉ validStatuses →
      updateOrderStatus env s id status = (⟨400, .error "Invalid status"⟩, s) :=
  ⟨fun _ ho => (nomatch ho),
    order_status_valid demoStore demoOpsDelivered (fun _ ho => (nomatch ho))⟩

/-! ## rateLimiter -/

theorem ceilDiv1000_spec (d : Int) :
    d ≤ 1000 * ceilDiv1000 d ∧ 1000 * (ceilDiv1000 d - 1) < d := by
  unfold ceilDiv1000
  constructor <;> omega

theorem ceilDiv1000_nonneg (d : Int) (h : 0 ≤ d) : 0 ≤ ceilDiv1000 d := by
  unfold ceilDiv1000
  omega

theorem ceilDiv1000_eq_ceil (d : Int) : ceilDiv1000 d = ⌈(d : ℚ) / 1000⌉ := by
  symm
  rw [Int.ceil_eq_iff]
  obtain ⟨h1, h2⟩ := ceilDiv1000_spec d
  constructor
  · rw [lt_div_iff₀ (by norm_num)]
    have : ((1000 * (ceilDiv1000 d - 1) : Int) : ℚ) < (d : ℚ) := by exact_mod_cast h2
    push_cast at this ⊢
    linarith
  · rw [div_le_iff₀ (by norm_num)]
    have : ((d : Int) : ℚ) ≤ ((1000 * ceilDiv1000 d : Int) : ℚ) := by exact_mod_cast h1
    push_cast at this
    linarith

/-- Requests that all arrive after `deadline` count for nothing. -/
theorem passedUntil_late (windowMs : Int) (max : Nat) (message key : String)
    (deadline : Int) :
    ∀ (reqs : List (String × Int)) (m : RateLimit), (∀ r ∈ reqs, deadline < r.2) →
      passedUntil windowMs max message key deadline m reqs = 0 := by
  intro reqs
  induction reqs with
  | nil => intro m _; rfl
  | cons r reqs ih =>
    intro m h
    obtain ⟨k, now⟩ := r
    have hnow : deadline < now := h (k, now) (List.mem_cons_self _ _)
    simp only [passedUntil]
    rw [ih _ (fun r hr => h r (List.mem_cons_of_mem _ hr)), if_neg]
    rintro ⟨-, hle, -⟩
    omega

/-- While the entry of `key` has count `c` and reset time `deadline`, at most
`max - c` further requests of `key` are passed up to `deadline`. -/
theorem passedUntil_window (windowMs : Int) (max : Nat) (message key : String)
    (deadline : Int) :
    ∀ (reqs : List (String × Int)) (m : RateLimit) (c : Nat),
      m key = some ⟨c, deadline⟩ → c ≤ max → timeOrdered reqs →
      passedUntil windowMs max message key deadline m reqs + c ≤ max := by
  intro reqs
  induction reqs with
  | nil => intro m c _ hc _; simpa [passedUntil] using hc
  | cons r reqs ih =>
    intro m c hm hc hord
    obtain ⟨k, now⟩ := r
    have hord' : timeOrdered reqs := (List.pairwise_cons.mp hord).2
    have hlater : ∀ r ∈ reqs, now ≤ r.2 := (List.pairwise_cons.mp hord).1
    simp only [passedUntil]
    by_cases hk : k = key
    · subst hk
      by_cases hlate : now > deadline
      · -- the window is over: the entry is reset and the later requests are late
        rw [passedUntil_late _ _ _ _ _ _ _ (fun r hr => by have := hlater r hr; omega),
          if_neg]
        · omega
        · rintro ⟨-, hle, -⟩; omega
      · by_cases hfull : c ≥ max
        · have hstep : rateLimiter windowMs max message m k now =
              (.limited message (ceilDiv1000 (deadline - now)), m) := by
            unfold rateLimiter
            simp only [hm]
            rw [if_neg hlate, if_pos hfull]
          rw [hstep]
          simp only [reduceCtorEq, and_false, if_false, zero_add]
          exact ih m c hm hc hord'
        · have hstep : rateLimiter windowMs max message m k now =
              (.next, fun k' => if k' = k then some ⟨c + 1, deadline⟩ else m k') := by
            unfold rateLimiter
            simp only [hm]
            rw [if_neg hlate, if_neg hfull]
          rw [hstep]
          have := ih (fun k' => if k' = k then some ⟨c + 1, deadline⟩ else m k') (c + 1)
            (by simp) (by omega) hord'
          have hle : now ≤ deadline := by omega
          simp only [hle, and_self, if_true, true_and]
          omega
    · have hkey : (rateLimiter windowMs max message m k now).2 key = some ⟨c, deadline⟩ := by
        have hne : ¬ key = k := fun e => hk e.symm
        unfold rateLimiter
        split
        · simp [hne, hm]
        · split
          · simp [hne, hm]
          · split
            · exact hm
            · simp [hne, hm]
      rw [if_neg (fun h => hk h.1), zero_add]
      exact ih _ c hkey hc hord'

/-- C19: for a limiter with `max >= 1` and `windowMs > 0`: from the request that
starts a window of a client key (the key has no entry, or its entry has
expired), the requests of that key that are passed to `next()` up to the reset
time of the window, that request included, are at most `max`, when the
timestamps do not decrease; and a request is answered 429 exactly when the key
has an entry with `now <= resetTime` and `count >= max`, the map is then left as
it is and `retryAfter` is the ceiling of `(resetTime - now) / 1000`, which is
not negative. -/
theorem rateLimiter_window (windowMs : Int) (max : Nat) (message : String)
    (hmax : 1 ≤ max) (hwindow : 0 < windowMs) :
    (∀ (m : RateLimit) (key : String) (t0 : Int) (rest : List (String × Int)),
      timeOrdered ((key, t0) :: rest) →
      (m key = none ∨ ∃ e, m key = some e ∧ e.resetTime < t0) →
      passedUntil windowMs max message key (t0 + windowMs) m ((key, t0) :: rest) ≤ max) ∧
    (∀ (m : RateLimit) (key : String) (now : Int),
      ((rateLimiter windowMs max message m key now).1 ≠ RateOutcome.next ↔
        ∃ e, m key = some e ∧ now ≤ e.resetTime ∧ e.count ≥ max) ∧
      (∀ e, m key = some e → now ≤ e.resetTime → e.count ≥ max →
        rateLimiter windowMs max message m key now =
          (.limited message (ceilDiv1000 (e.resetTime - now)), m) ∧
        0 ≤ ceilDiv1000 (e.resetTime - now) ∧
        ceilDiv1000 (e.resetTime - now) = ⌈((e.resetTime - now : Int) : ℚ) / 1000⌉)) := by
  constructor
  · intro m key t0 rest hord hstart
    have hstep : rateLimiter windowMs max message m key t0 =
        (.next, fun k => if k = key then some ⟨1, t0 + windowMs⟩ else m k) := by
      unfold rateLimiter
      rcases hstart with h | ⟨e, he, hlt⟩
      · simp only [h]
      · simp only [he]
        rw [if_pos hlt]
    simp only [passedUntil]
    rw [hstep]
    have := passedUntil_window windowMs max message key (t0 + windowMs) rest
      (fun k => if k = key then some ⟨1, t0 + windowMs⟩ else m k) 1 (by simp) hmax
      (List.pairwise_cons.mp hord).2
    have hle : t0 ≤ t0 + windowMs := by omega
    simp only [hle, and_self, if_true]
    omega
  · intro m key now
    have hlim : ∀ e, m key = some e → now ≤ e.resetTime → e.count ≥ max →
        rateLimiter windowMs max message m key now =
          (.limited message (ceilDiv1000 (e.resetTime - now)), m) := by
      intro e he hle hfull
      unfold rateLimiter
      simp only [he]
      rw [if_neg (by omega), if_pos hfull]
    refine ⟨⟨?_, ?_⟩, ?_⟩
    · intro h
      unfold rateLimiter at h
      cases hm : m key with
      | none => simp [hm] at h
      | some e =>
        simp only [hm] at h
        by_cases hlate : now > e.resetTime
        · simp [hlate] at h
        · by_cases hfull : e.count ≥ max
          · exact ⟨e, rfl, by omega, hfull⟩
          · simp [hlate, hfull] at h
    · rintro ⟨e, he, hle, hfull⟩
      rw [hlim e he hle hfull]
      simp
    · intro e he hle hfull
      exact ⟨hlim e he hle hfull, ceilDiv1000_nonneg _ (by omega), ceilDiv1000_eq_ceil _⟩

theorem rateLimiter_window_witness :
    passedUntil 60000 2 "Too many requests" "10.0.0.1" (0 + 60000) (fun _ => none)
        [("10.0.0.1", 0), ("10.0.0.1", 10), ("10.0.0.2", 20), ("10.0.0.1", 30)] ≤ 2 ∧
    ((rateLimiter 60000 2 "Too many requests"
          (fun k => if k = "10.0.0.1" then some ⟨2, 60000⟩ else none) "10.0.0.1" 30).1
        ≠ RateOutcome.next ↔
      ∃ e, (fun k => if k = "10.0.0.1" then some (⟨2, 60000⟩ : RateEntry) else none)
          "10.0.0.1" = some e ∧ (30 : Int) ≤ e.resetTime ∧ e.count ≥ 2) :=
  ⟨(rateLimiter_window 60000 2 "Too many requests" (by decide) (by decide)).1
      (fun _ => none) "10.0.0.1" 0 _ (by unfold timeOrdered; decide) (Or.inl rfl),
    ((rateLimiter_window 60000 2 "Too many requests" (by decide) (by decide)).2
      (fun k => if k = "10.0.0.1" then some ⟨2, 60000⟩ else none) "10.0.0.1" 30).1⟩

/-! ## validateOrder on arbitrary bodies -/

/-- C21, at failing inputs: on a body whose `items` is a string, on a body whose
`shipping_address` is a number, and on a body whose cart holds `null` after a
valid line, `validateOrder` throws, whatever the engine: it neither calls
`next()` nor answers 400. -/
theorem validateOrder_throws_on_untyped_body (engine : JsEngine) :
    validateOrder engine demoBodyStringItems = Validation.throws ∧
    validateOrder engine demoBodyNumberAddress = Validation.throws ∧
    validateOrder engine demoBodyNullAfterLine = Validation.throws := by
  refine ⟨rfl, rfl, rfl⟩

/-! ## getAllProducts -/

/-- For a `sort` value that names no inherited property, the clause is one of
the five fixed strings. -/
theorem orderByClause_fixed (sort : Option String)
    (h : ∀ key, sort = some key → inheritedText key = none) :
    orderByClause sort ∈ fixedClauses := by
  unfold orderByClause
  cases sort with
  | none => decide
  | some key =>
    simp only
    cases hl : sortOptions.lookup key with
    | some clause =>
      simp only
      have hmem : ∀ (l : List (String × String)), l.lookup key = some clause →
          clause ∈ l.map (fun kv => kv.2) := by
        intro l
        induction l with
        | nil => intro h0; simp [List.lookup] at h0
        | cons kv l ih =>
          intro h0
          obtain ⟨k, v⟩ := kv
          simp only [List.lookup] at h0
          split at h0
          · simp only [Option.some.injEq] at h0
            simp [h0]
          · simp [ih h0]
      exact hmem sortOptions hl
    | none =>
      simp only [h key rfl]
      decide

/-- C22, at a failing input: for `sort=constructor` the text appended after
`ORDER BY` is the text of the function `Object`, inherited by `sortOptions`:
it is none of the five fixed strings, it is part of the SQL text sent to the
database, and the request is answered 500. -/
theorem orderBy_inherited_property :
    orderByClause (some "constructor") = "function Object() \x7b [native code] \x7d" ∧
    orderByClause (some "constructor") ∉ fixedClauses ∧
    (getAllProducts.query demoQueryConstructor).text =
      "SELECT * FROM products WHERE 1=1 ORDER BY function Object() \x7b [native code] \x7d LIMIT $1 OFFSET $2" ∧
    getAllProducts demoCatalogEnv demoCatalog demoQueryConstructor =
      ⟨500, .error "Failed to get products"⟩ := by
  decide

/-- Without `minPrice` and `maxPrice` the two queries carry the same
conditions. -/
theorem countFilter_eq_listingFilter (sql : SqlEngine) (q : ProductQuery)
    (hmin : q.minPrice = none) (hmax : q.maxPrice = none) :
    countFilter sql q = listingFilter sql q := by
  funext p
  simp [countFilter, listingFilter, hmin, hmax]

/-- C23, at a failing input: for `minPrice=400&limit=1` on a table with a laptop
at 500 and a phone at 300, the listing query carries the condition on the price
and the count query does not: one product matches the filters of the listing,
and the answer has `total` 2 and `pages` 2. -/
theorem count_ignores_price_filters :
    (getAllProducts.query demoQueryMinPrice).text =
      "SELECT * FROM products WHERE 1=1 AND price >= $1 ORDER BY created_at DESC LIMIT $2 OFFSET $3" ∧
    (getAllProducts.countQuery demoQueryMinPrice).text =
      "SELECT COUNT(*) FROM products WHERE 1=1" ∧
    (demoCatalog.filter (listingFilter demoCatalogEnv.sql demoQueryMinPrice)).length = 1 ∧
    getAllProducts demoCatalogEnv demoCatalog demoQueryMinPrice =
      ⟨200, .productList "database" (demoCatalog.take 1)
        { page := 1, limit := 1, total := 2, pages := some 2 }⟩ := by
  decide

end DhakaCart
